import Mathlib

/-!
Shallow embedding of the LMS backend's progress-aggregation, enrollment,
course-publishing and quiz-grading subsystems
(`app/services/progress_service.py`, `app/services/course_service.py`,
`app/services/quiz_service.py`), together with theorems settling the
frozen claims about them.

Database tables are lists of records; `.first()` on a filtered query is
`List.find?`; `func.count` on a filtered query is the length of a
`List.filter`; committing a mutated row maps the update over the table.
Python floats are modelled as `Rat`, timestamps as a `Nat` clock carried
in the state, ids as `Nat`, and raised `HTTPException`s as the `error`
branch of `Except` (a raised exception leaves the store unmodified,
since every raise in the modelled code paths happens before any write is
committed for that call).
-/

namespace LMS

/-- The `ProgressStatus` enumeration from `app/models/models/progress.py`. -/
inductive ProgressStatus where
  | not_started
  | in_progress
  | completed
deriving DecidableEq, Repr

/-- The `EnrollmentStatus` enumeration from `app/models/models/course.py`. -/
inductive EnrollmentStatus where
  | enrolled
  | in_progress
  | completed
  | dropped
deriving DecidableEq, Repr

/-- The `CourseStatus` enumeration from `app/models/models/course.py`. -/
inductive CourseStatus where
  | draft
  | under_review
  | approved
  | published
  | archived
deriving DecidableEq, Repr

/-- A user row (only the fields the modelled services read). -/
structure User where
  id : Nat
deriving DecidableEq, Repr

/-- A course row; `modules` is the list of module ids owned by the course
(the `course.modules` ORM relationship). -/
structure Course where
  id : Nat
  title : String
  status : CourseStatus
  modules : List Nat
  published_at : Option Nat := none
deriving DecidableEq, Repr

/-- An `Enrollment` row from `app/models/models/course.py`. -/
structure Enrollment where
  id : Nat
  user_id : Nat
  course_id : Nat
  status : EnrollmentStatus := EnrollmentStatus.enrolled
  progress_percentage : Rat := 0
  enrolled_at : Option Nat := none
  started_at : Option Nat := none
  completed_at : Option Nat := none
  due_date : Option Nat := none
  assigned_by : Option Nat := none
  updated_at : Nat := 0
deriving DecidableEq, Repr

/-- A `ModuleProgress` row as read and written by
`app/services/progress_service.py`. -/
structure ModuleProgress where
  id : Nat
  enrollment_id : Nat
  module_id : Nat
  user_id : Nat
  status : ProgressStatus
  started_at : Option Nat := none
  completed_at : Option Nat := none
  time_spent : Nat := 0
deriving DecidableEq, Repr

/-- A `ContentProgress` row, keyed by `(module_progress_id, content_type)`. -/
structure ContentProgress where
  id : Nat
  module_progress_id : Nat
  content_type : String
  status : ProgressStatus
  progress_percentage : Rat
  time_spent : Nat
  last_accessed : Option Nat := none
deriving DecidableEq, Repr

/-- The relational store for the progress/enrollment/course subsystem,
plus a fresh-id counter and the current clock. -/
structure DB where
  users : List User
  courses : List Course
  enrollments : List Enrollment
  module_progresses : List ModuleProgress
  content_progresses : List ContentProgress
  next_id : Nat
  now : Nat
deriving DecidableEq, Repr

/-- A raised `fastapi.HTTPException`: status code and detail message. -/
structure HTTPError where
  status_code : Nat
  detail : String
deriving DecidableEq, Repr

/-- The `ProgressUpdateSchema` input from `app/schemas/progress.py`. -/
structure ProgressUpdateSchema where
  course_id : Nat
  module_id : Nat
  content_type : String
  status : ProgressStatus
  progress_percentage : Rat := 0
  time_spent : Option Nat := none
deriving DecidableEq, Repr

/-- The `UserCourseProgressSchema` view from `app/schemas/progress.py` (the fields
the service populates). -/
structure UserCourseProgressSchema where
  enrollment_id : Nat
  user_id : Nat
  course_id : Nat
  course_title : String
  enrollment_status : EnrollmentStatus
  progress_percentage : Rat
  started_at : Option Nat
  completed_at : Option Nat
  due_date : Option Nat
  total_modules : Nat
  completed_modules : Nat
  total_time_spent : Nat
  last_accessed : Option Nat
deriving DecidableEq, Repr

/-- The `func.count(ModuleProgress.id)` query filtered on an enrollment id
and `status == COMPLETED`, issued three times by the progress service. -/
def completedModuleCount (db : DB) (enrollment_id : Nat) : Nat :=
  (db.module_progresses.filter
    (fun mp => mp.enrollment_id == enrollment_id &&
               mp.status == ProgressStatus.completed)).length

/-- The enrollment lookup `select(Enrollment).where(user_id & course_id)`. -/
def findEnrollment (db : DB) (user_id course_id : Nat) : Option Enrollment :=
  db.enrollments.find? (fun e => e.user_id == user_id && e.course_id == course_id)

/-- The course lookup `select(Course).where(Course.id == course_id)`. -/
def findCourse (db : DB) (course_id : Nat) : Option Course :=
  db.courses.find? (fun c => c.id == course_id)

/-- Model of `ProgressService.get_user_progress_for_course`: detailed rollup for a
user in one course, recomputed on demand. -/
def get_user_progress_for_course (db : DB) (user_id course_id : Nat) :
    Except HTTPError UserCourseProgressSchema :=
  match findEnrollment db user_id course_id with
  | none => Except.error ⟨404, "User not enrolled in this course"⟩
  | some enrollment =>
    match findCourse db course_id with
    | none => Except.error ⟨404, "Course not found"⟩
    | some course =>
      let total_modules := course.modules.length
      let completed_modules := completedModuleCount db enrollment.id
      let progress_percentage : Rat :=
        if total_modules > 0 then (completed_modules : Rat) / (total_modules : Rat) * 100 else 0
      Except.ok {
        enrollment_id := enrollment.id
        user_id := user_id
        course_id := course.id
        course_title := course.title
        enrollment_status := enrollment.status
        progress_percentage := progress_percentage
        started_at := enrollment.started_at
        completed_at := enrollment.completed_at
        due_date := enrollment.due_date
        total_modules := total_modules
        completed_modules := completed_modules
        total_time_spent := 0
        last_accessed := some enrollment.updated_at }

/-- Model of `ProgressService.get_user_course_progress`: paginated rollup across all
of a user's enrollments; returns the page of rows and the total enrollment
count. Enrollments whose course row is missing are skipped (`continue`). -/
def get_user_course_progress (db : DB) (user_id : Nat) (page : Nat := 1)
    (limit : Nat := 20) :
    Except HTTPError (List UserCourseProgressSchema × Nat) :=
  match db.users.find? (fun u => u.id == user_id) with
  | none => Except.error ⟨404, "User not found"⟩
  | some _ =>
    let user_enrollments := db.enrollments.filter (fun e => e.user_id == user_id)
    let total := user_enrollments.length
    let offset := (page - 1) * limit
    let page_enrollments := (user_enrollments.drop offset).take limit
    let rows := page_enrollments.filterMap (fun enrollment =>
      match findCourse db enrollment.course_id with
      | none => none
      | some course =>
        let total_modules := course.modules.length
        let completed_modules := completedModuleCount db enrollment.id
        let progress_percentage : Rat :=
          if total_modules > 0 then (completed_modules : Rat) / (total_modules : Rat) * 100 else 0
        some {
          enrollment_id := enrollment.id
          user_id := user_id
          course_id := course.id
          course_title := course.title
          enrollment_status := enrollment.status
          progress_percentage := progress_percentage
          started_at := enrollment.started_at
          completed_at := enrollment.completed_at
          due_date := enrollment.due_date
          total_modules := total_modules
          completed_modules := completed_modules
          total_time_spent := 0
          last_accessed := some enrollment.updated_at })
    Except.ok (rows, total)

/-- The full set of `ContentProgress` rows under one `ModuleProgress` row
(`select(ContentProgress).where(module_progress_id == ...)`). -/
def contentRowsOf (db : DB) (module_progress_id : Nat) : List ContentProgress :=
  db.content_progresses.filter (fun cp => cp.module_progress_id == module_progress_id)

/-- The count `sum(1 for cp in all_content_progress if cp.status == COMPLETED)`. -/
def completedContentCount (db : DB) (module_progress_id : Nat) : Nat :=
  ((contentRowsOf db module_progress_id).filter
    (fun cp => cp.status == ProgressStatus.completed)).length

/-- Model of `ProgressService._update_module_progress_status`: recompute a
`ModuleProgress` row's status from the full set of `ContentProgress` rows
under it, stamping `completed_at` when all rows are completed. -/
def updateModuleProgressStatus (db : DB) (module_progress_id : Nat) : DB :=
  match db.module_progresses.find? (fun mp => mp.id == module_progress_id) with
  | none => db
  | some _ =>
    let all_content_progress := contentRowsOf db module_progress_id
    let completed_count := completedContentCount db module_progress_id
    let upd : ModuleProgress → ModuleProgress := fun mp =>
      if all_content_progress.isEmpty then
        { mp with status := ProgressStatus.not_started }
      else if completed_count == all_content_progress.length then
        { mp with status := ProgressStatus.completed, completed_at := some db.now }
      else if 0 < completed_count then
        { mp with status := ProgressStatus.in_progress }
      else
        { mp with status := ProgressStatus.not_started }
    { db with module_progresses :=
        db.module_progresses.map (fun mp => if mp.id == module_progress_id then upd mp else mp) }

/-- Model of `ProgressService._update_enrollment_progress_status`: recompute an
enrollment's `progress_percentage` and status from the count of completed
`ModuleProgress` rows versus the course's module count; a course with zero
modules stores 100% and status completed. -/
def updateEnrollmentProgressStatus (db : DB) (enrollment_id : Nat) : DB :=
  match db.enrollments.find? (fun e => e.id == enrollment_id) with
  | none => db
  | some enrollment =>
    match findCourse db enrollment.course_id with
    | none => db
    | some course =>
      let total_modules := course.modules.length
      let upd : Enrollment → Enrollment := fun e =>
        if total_modules == 0 then
          { e with progress_percentage := 100,
                   status := EnrollmentStatus.completed }
        else
          let completed_modules_count := completedModuleCount db enrollment_id
          let e1 := { e with progress_percentage :=
            (completed_modules_count : Rat) / (total_modules : Rat) * 100 }
          if completed_modules_count == total_modules then
            { e1 with status := EnrollmentStatus.completed, completed_at := some db.now }
          else if 0 < completed_modules_count then
            { e1 with status := EnrollmentStatus.in_progress }
          else
            { e1 with status := EnrollmentStatus.enrolled }
      { db with enrollments :=
          db.enrollments.map (fun e => if e.id == enrollment_id then upd e else e) }

/-- The locate-or-create step for `ModuleProgress` inside
`ProgressService.update_content_progress`; creation sets status
`in_progress`, stamps `started_at` and flushes the row. -/
def getOrCreateModuleProgress (db : DB) (user_id : Nat) (enrollment : Enrollment)
    (pd : ProgressUpdateSchema) : DB × ModuleProgress :=
  match db.module_progresses.find?
      (fun mp => mp.enrollment_id == enrollment.id && mp.module_id == pd.module_id) with
  | some mp => (db, mp)
  | none =>
    let mp : ModuleProgress := {
      id := db.next_id
      enrollment_id := enrollment.id
      module_id := pd.module_id
      user_id := user_id
      status := ProgressStatus.in_progress
      started_at := some db.now
      time_spent := 0 }
    ({ db with module_progresses := db.module_progresses ++ [mp],
               next_id := db.next_id + 1 }, mp)

/-- The upsert step for `ContentProgress` inside
`ProgressService.update_content_progress`: create seeded from the input, or
overwrite status and percentage and add the time-spent increment. -/
def upsertContentProgress (db : DB) (module_progress : ModuleProgress)
    (pd : ProgressUpdateSchema) : DB × ContentProgress :=
  match db.content_progresses.find?
      (fun cp => cp.module_progress_id == module_progress.id &&
                 cp.content_type == pd.content_type) with
  | none =>
    let cp : ContentProgress := {
      id := db.next_id
      module_progress_id := module_progress.id
      content_type := pd.content_type
      status := pd.status
      progress_percentage := pd.progress_percentage
      time_spent := pd.time_spent.getD 0
      last_accessed := some db.now }
    ({ db with content_progresses := db.content_progresses ++ [cp],
               next_id := db.next_id + 1 }, cp)
  | some cp0 =>
    let cp : ContentProgress := {
      cp0 with
      status := pd.status
      progress_percentage := pd.progress_percentage
      time_spent := cp0.time_spent + pd.time_spent.getD 0
      last_accessed := some db.now }
    ({ db with content_progresses :=
        db.content_progresses.map (fun c => if c.id == cp0.id then cp else c) }, cp)

/-- Model of `ProgressService.update_content_progress`: record progress for one
content item, then recompute the module's and the enrollment's rollup. -/
def update_content_progress (db : DB) (user_id : Nat) (pd : ProgressUpdateSchema) :
    Except HTTPError (DB × ContentProgress) :=
  match findEnrollment db user_id pd.course_id with
  | none => Except.error ⟨404, "User not enrolled in this course"⟩
  | some enrollment =>
    let step1 := getOrCreateModuleProgress db user_id enrollment pd
    let step2 := upsertContentProgress step1.1 step1.2 pd
    let db3 := updateModuleProgressStatus step2.1 step1.2.id
    let db4 := updateEnrollmentProgressStatus db3 enrollment.id
    Except.ok (db4, step2.2)

/-- The `EnrollmentCreateSchema` input from `app/schemas/course.py` (modelled fields). -/
structure EnrollmentCreateSchema where
  user_id : Nat
  course_id : Nat
  due_date : Option Nat := none
deriving DecidableEq, Repr

/-- Model of `CourseService.enroll_user`: validate user, course and absence of an
existing enrollment for the pair, then create the enrollment row.
The outbound assignment email is an external side effect and is not part
of the store. -/
def enroll_user (db : DB) (enrollment_data : EnrollmentCreateSchema)
    (assigned_by : Option Nat := none) : Except HTTPError (DB × Enrollment) :=
  match db.users.find? (fun u => u.id == enrollment_data.user_id) with
  | none => Except.error ⟨404, "User not found"⟩
  | some _user =>
    match findCourse db enrollment_data.course_id with
    | none => Except.error ⟨404, "Course not found"⟩
    | some _course =>
      match findEnrollment db enrollment_data.user_id enrollment_data.course_id with
      | some _ => Except.error ⟨400, "User is already enrolled in this course"⟩
      | none =>
        let new_enrollment : Enrollment := {
          id := db.next_id
          user_id := enrollment_data.user_id
          course_id := enrollment_data.course_id
          enrolled_at := some db.now
          due_date := enrollment_data.due_date
          assigned_by := assigned_by
          status := EnrollmentStatus.enrolled }
        Except.ok ({ db with enrollments := db.enrollments ++ [new_enrollment],
                             next_id := db.next_id + 1 }, new_enrollment)

/-- Model of `CourseService.publish_course`: requires the course to exist, not to be
published already, and to own at least one module; stamps `published_at`. -/
def publish_course (db : DB) (course_id : Nat) : Except HTTPError (DB × Course) :=
  match findCourse db course_id with
  | none => Except.error ⟨404, "Course not found"⟩
  | some course =>
    if course.status == CourseStatus.published then
      Except.error ⟨400, "Course is already published"⟩
    else if course.modules.isEmpty then
      Except.error ⟨400, "Cannot publish course without modules"⟩
    else
      let course1 : Course := { course with
        status := CourseStatus.published
        published_at := some db.now }
      Except.ok ({ db with courses :=
                    db.courses.map (fun c => if c.id == course_id then course1 else c) },
                 course1)

/-- The `QuestionType` enumeration from `app/models/models/quiz.py`. -/
inductive QuestionType where
  | multiple_choice
  | true_false
  | short_answer
  | essay
deriving DecidableEq, Repr

/-- A `Quiz` row (the fields `submit_quiz_attempt` reads). -/
structure Quiz where
  id : Nat
  module_id : Nat
  max_attempts : Nat
  passing_score : Rat
deriving DecidableEq, Repr

/-- A `Question` row. -/
structure Question where
  id : Nat
  quiz_id : Nat
  question_type : QuestionType
  points : Rat
deriving DecidableEq, Repr

/-- A `QuestionOption` row. -/
structure QuestionOption where
  id : Nat
  question_id : Nat
  is_correct : Bool
deriving DecidableEq, Repr

/-- A `QuizAttempt` row as written by `submit_quiz_attempt`. -/
structure QuizAttempt where
  id : Nat
  quiz_id : Nat
  user_id : Nat
  attempt_number : Nat
  total_points : Rat
  earned_points : Rat
  score : Rat
  is_passed : Bool
  started_at : Nat
  completed_at : Option Nat
  time_spent : Nat
deriving DecidableEq, Repr

/-- A `QuizResponse` row as written by `submit_quiz_attempt`. -/
structure QuizResponse where
  attempt_id : Nat
  question_id : Nat
  selected_option_id : Option Nat
  text_response : Option String
  is_correct : Bool
  points_earned : Rat
deriving DecidableEq, Repr

/-- The relational store for the quiz subsystem. -/
structure QuizDB where
  quizzes : List Quiz
  questions : List Question
  options : List QuestionOption
  attempts : List QuizAttempt
  responses : List QuizResponse
  next_id : Nat
  now : Nat
deriving DecidableEq, Repr

/-- One submitted response inside `QuizAttemptStartSchema.responses`
(`QuizResponseSchema` in `app/schemas/quiz.py`). -/
structure ResponseInput where
  question_id : Nat
  selected_option_id : Option Nat := none
  text_response : Option String := none
deriving DecidableEq, Repr

/-- The total `sum(q.points for q in quiz.questions)`: the sum of points over all of
the quiz's questions (the `quiz.questions` relationship). -/
def quizTotalPoints (db : QuizDB) (quiz_id : Nat) : Rat :=
  ((db.questions.filter (fun q => q.quiz_id == quiz_id)).map (fun q => q.points)).sum

/-- The per-response correctness check inside the submission loop:
multiple-choice/true-false look the selected option up by id and use its
`is_correct` flag; short-answer/essay count as correct when the text is
truthy and non-blank after stripping. -/
def responseIsCorrect (db : QuizDB) (question : Question) (rd : ResponseInput) : Bool :=
  match question.question_type with
  | QuestionType.multiple_choice | QuestionType.true_false =>
    match rd.selected_option_id with
    | none => false
    | some oid =>
      match db.options.find? (fun o => o.id == oid) with
      | none => false
      | some selected_option => selected_option.is_correct
  | QuestionType.short_answer | QuestionType.essay =>
    match rd.text_response with
    | none => false
    | some t => !t.isEmpty && !t.trim.isEmpty

/-- The body of the `for response_data in attempt_data.responses` loop of
`submit_quiz_attempt`: skip an unknown question id, otherwise accumulate the
earned points and append the graded `QuizResponse` row. -/
def gradeStep (db : QuizDB) (attempt_id : Nat) (acc : Rat × List QuizResponse)
    (rd : ResponseInput) : Rat × List QuizResponse :=
  match db.questions.find? (fun q => q.id == rd.question_id) with
  | none => acc
  | some question =>
    let is_correct := responseIsCorrect db question rd
    (acc.1 + (if is_correct then question.points else 0),
     acc.2 ++ [{ attempt_id := attempt_id
                 question_id := question.id
                 selected_option_id := rd.selected_option_id
                 text_response := rd.text_response
                 is_correct := is_correct
                 points_earned := if is_correct then question.points else 0 }])

/-- The `for response_data in attempt_data.responses` loop of
`submit_quiz_attempt`: skip unknown question ids, accumulate earned points
and build the `QuizResponse` rows in submission order. -/
def gradeFold (db : QuizDB) (attempt_id : Nat) (rds : List ResponseInput) :
    Rat × List QuizResponse :=
  rds.foldl (gradeStep db attempt_id) (0, [])

/-- Model of `QuizService.submit_quiz_attempt`: enforce `max_attempts`, grade each
submitted response, and persist the attempt with its score and pass flag. -/
def submit_quiz_attempt (db : QuizDB) (quiz_id user_id : Nat)
    (attempt_responses : List ResponseInput) :
    Except HTTPError (QuizDB × QuizAttempt) :=
  match db.quizzes.find? (fun q => q.id == quiz_id) with
  | none => Except.error ⟨404, "Quiz not found"⟩
  | some quiz =>
    let user_attempts_count :=
      (db.attempts.filter (fun a => a.quiz_id == quiz_id && a.user_id == user_id)).length
    if quiz.max_attempts ≤ user_attempts_count then
      Except.error ⟨400, "Maximum attempts reached"⟩
    else
      let attempt_id := db.next_id
      let graded := gradeFold db attempt_id attempt_responses
      let total_points := quizTotalPoints db quiz_id
      let earned_points := graded.1
      let score : Rat := if 0 < total_points then earned_points / total_points * 100 else 0
      let new_attempt : QuizAttempt := {
        id := attempt_id
        quiz_id := quiz_id
        user_id := user_id
        attempt_number := user_attempts_count + 1
        total_points := total_points
        earned_points := earned_points
        score := score
        is_passed := decide (quiz.passing_score ≤ score)
        started_at := db.now
        completed_at := some db.now
        time_spent := 0 }
      Except.ok ({ db with attempts := db.attempts ++ [new_attempt],
                           responses := db.responses ++ graded.2,
                           next_id := db.next_id + 1 }, new_attempt)

/-- Run a record-content-progress call against the store, keeping the old
store when the call raises (a raised `HTTPException` commits nothing). -/
def applyUpdate (db : DB) (user_id : Nat) (pd : ProgressUpdateSchema) : DB :=
  match update_content_progress db user_id pd with
  | Except.ok (db', _) => db'
  | Except.error _ => db

/-- Run an enroll-user call against the store, keeping the old store when
the call raises. -/
def applyEnroll (db : DB) (ed : EnrollmentCreateSchema) : DB :=
  match enroll_user db ed none with
  | Except.ok (db', _) => db'
  | Except.error _ => db

/-- The module ids of an enrollment's `ModuleProgress` rows, in table order. -/
def enrollmentModuleIds (db : DB) (enrollment_id : Nat) : List Nat :=
  (db.module_progresses.filter (fun mp => mp.enrollment_id == enrollment_id)).map
    (fun mp => mp.module_id)

section HelperLemmas

lemma updateEnrollmentProgressStatus_module_progresses (db : DB) (eid : Nat) :
    (updateEnrollmentProgressStatus db eid).module_progresses = db.module_progresses := by
  unfold updateEnrollmentProgressStatus
  split
  · rfl
  · split <;> rfl

lemma updateEnrollmentProgressStatus_content_progresses (db : DB) (eid : Nat) :
    (updateEnrollmentProgressStatus db eid).content_progresses = db.content_progresses := by
  unfold updateEnrollmentProgressStatus
  split
  · rfl
  · split <;> rfl

lemma updateEnrollmentProgressStatus_now (db : DB) (eid : Nat) :
    (updateEnrollmentProgressStatus db eid).now = db.now := by
  unfold updateEnrollmentProgressStatus
  split
  · rfl
  · split <;> rfl

lemma updateModuleProgressStatus_content_progresses (db : DB) (mpid : Nat) :
    (updateModuleProgressStatus db mpid).content_progresses = db.content_progresses := by
  unfold updateModuleProgressStatus
  split <;> rfl

lemma updateModuleProgressStatus_now (db : DB) (mpid : Nat) :
    (updateModuleProgressStatus db mpid).now = db.now := by
  unfold updateModuleProgressStatus
  split <;> rfl

lemma updateModuleProgressStatus_enrollments (db : DB) (mpid : Nat) :
    (updateModuleProgressStatus db mpid).enrollments = db.enrollments := by
  unfold updateModuleProgressStatus
  split <;> rfl

lemma updateModuleProgressStatus_courses (db : DB) (mpid : Nat) :
    (updateModuleProgressStatus db mpid).courses = db.courses := by
  unfold updateModuleProgressStatus
  split <;> rfl

lemma getOrCreateModuleProgress_content_progresses (db : DB) (uid : Nat)
    (en : Enrollment) (pd : ProgressUpdateSchema) :
    (getOrCreateModuleProgress db uid en pd).1.content_progresses = db.content_progresses := by
  unfold getOrCreateModuleProgress
  split <;> rfl

lemma getOrCreateModuleProgress_enrollments (db : DB) (uid : Nat)
    (en : Enrollment) (pd : ProgressUpdateSchema) :
    (getOrCreateModuleProgress db uid en pd).1.enrollments = db.enrollments := by
  unfold getOrCreateModuleProgress
  split <;> rfl

lemma getOrCreateModuleProgress_courses (db : DB) (uid : Nat)
    (en : Enrollment) (pd : ProgressUpdateSchema) :
    (getOrCreateModuleProgress db uid en pd).1.courses = db.courses := by
  unfold getOrCreateModuleProgress
  split <;> rfl

lemma getOrCreateModuleProgress_now (db : DB) (uid : Nat)
    (en : Enrollment) (pd : ProgressUpdateSchema) :
    (getOrCreateModuleProgress db uid en pd).1.now = db.now := by
  unfold getOrCreateModuleProgress
  split <;> rfl

lemma upsertContentProgress_module_progresses (db : DB) (mp : ModuleProgress)
    (pd : ProgressUpdateSchema) :
    (upsertContentProgress db mp pd).1.module_progresses = db.module_progresses := by
  unfold upsertContentProgress
  split <;> rfl

lemma upsertContentProgress_enrollments (db : DB) (mp : ModuleProgress)
    (pd : ProgressUpdateSchema) :
    (upsertContentProgress db mp pd).1.enrollments = db.enrollments := by
  unfold upsertContentProgress
  split <;> rfl

lemma upsertContentProgress_courses (db : DB) (mp : ModuleProgress)
    (pd : ProgressUpdateSchema) :
    (upsertContentProgress db mp pd).1.courses = db.courses := by
  unfold upsertContentProgress
  split <;> rfl

lemma upsertContentProgress_now (db : DB) (mp : ModuleProgress)
    (pd : ProgressUpdateSchema) :
    (upsertContentProgress db mp pd).1.now = db.now := by
  unfold upsertContentProgress
  split <;> rfl

/-- The upserted `ContentProgress` row always carries the module progress id
it was upserted under. -/
lemma upsertContentProgress_snd_module_progress_id (db : DB) (mp : ModuleProgress)
    (pd : ProgressUpdateSchema) :
    (upsertContentProgress db mp pd).2.module_progress_id = mp.id := by
  unfold upsertContentProgress
  split
  · rfl
  · rename_i cp0 hfind
    have hp := List.find?_some hfind
    have h2 : cp0.module_progress_id = mp.id ∧ cp0.content_type = pd.content_type := by
      simpa using hp
    simpa using h2.1

/-- Inversion of a successful `update_content_progress` call into its
four sequential steps, naming the intermediate stores. -/
lemma update_content_progress_ok {db : DB} {uid : Nat} {pd : ProgressUpdateSchema}
    {db' : DB} {cp : ContentProgress}
    (h : update_content_progress db uid pd = Except.ok (db', cp)) :
    ∃ en db1 mp1 db2 cp2,
      findEnrollment db uid pd.course_id = some en ∧
      getOrCreateModuleProgress db uid en pd = (db1, mp1) ∧
      upsertContentProgress db1 mp1 pd = (db2, cp2) ∧
      db' = updateEnrollmentProgressStatus (updateModuleProgressStatus db2 mp1.id) en.id ∧
      cp = cp2 := by
  unfold update_content_progress at h
  cases he : findEnrollment db uid pd.course_id with
  | none => rw [he] at h; exact absurd h (by simp)
  | some en =>
    rw [he] at h
    simp only [Except.ok.injEq, Prod.mk.injEq] at h
    exact ⟨en, (getOrCreateModuleProgress db uid en pd).1,
      (getOrCreateModuleProgress db uid en pd).2,
      (upsertContentProgress (getOrCreateModuleProgress db uid en pd).1
        (getOrCreateModuleProgress db uid en pd).2 pd).1,
      (upsertContentProgress (getOrCreateModuleProgress db uid en pd).1
        (getOrCreateModuleProgress db uid en pd).2 pd).2,
      rfl, rfl, rfl, h.1.symm, h.2.symm⟩

/-- The locate-or-create step always returns a row present in the store it
returns. -/
lemma getOrCreateModuleProgress_snd_mem (db : DB) (uid : Nat) (en : Enrollment)
    (pd : ProgressUpdateSchema) :
    (getOrCreateModuleProgress db uid en pd).2 ∈
      (getOrCreateModuleProgress db uid en pd).1.module_progresses := by
  unfold getOrCreateModuleProgress
  split
  · rename_i mp hf
    exact List.mem_of_find?_eq_some hf
  · simp

end HelperLemmas

/-- C9: publishing a course fails with BadRequest 400 when the course is
already published or owns zero modules — and the raise happens before any
write, so the store (hence the course row) is unchanged — otherwise it
succeeds, sets the status to published, and stamps a non-null
`published_at`. -/
theorem C9_publish_course (db : DB) (course_id : Nat) (course : Course)
    (hc : findCourse db course_id = some course) :
    (course.status = CourseStatus.published →
      publish_course db course_id = Except.error ⟨400, "Course is already published"⟩) ∧
    (course.status ≠ CourseStatus.published → course.modules = [] →
      publish_course db course_id = Except.error ⟨400, "Cannot publish course without modules"⟩) ∧
    (course.status ≠ CourseStatus.published → course.modules ≠ [] →
      publish_course db course_id =
        Except.ok ({ db with courses := db.courses.map (fun c =>
            if c.id == course_id then
              { course with status := CourseStatus.published, published_at := some db.now }
            else c) },
          { course with status := CourseStatus.published, published_at := some db.now }) ∧
      (some db.now : Option Nat) ≠ none) := by
  refine ⟨?_, ?_, ?_⟩
  · intro h1
    simp only [publish_course, hc]
    rw [if_pos (by simp [h1])]
  · intro h1 h2
    simp only [publish_course, hc]
    rw [if_neg (by simp [h1]), if_pos (by simp [h2])]
  · intro h1 h2
    refine ⟨?_, by simp⟩
    simp only [publish_course, hc]
    rw [if_neg (by simp [h1]), if_neg (by simp [h2])]

/-- A one-course store used to instantiate the C9 theorem. -/
def c9db : DB := {
  users := []
  courses := [{ id := 7, title := "c", status := CourseStatus.draft, modules := [10] }]
  enrollments := []
  module_progresses := []
  content_progresses := []
  next_id := 0
  now := 5 }

/-- Witness for C9: publishing a draft course with one module succeeds and
stamps `published_at`. -/
theorem C9_publish_course_witness :
    publish_course c9db 7 =
      Except.ok ({ c9db with courses := c9db.courses.map (fun c =>
          if c.id == 7 then
            { id := 7, title := "c", status := CourseStatus.published,
              modules := [10], published_at := some c9db.now }
          else c) },
        { id := 7, title := "c", status := CourseStatus.published,
          modules := [10], published_at := some c9db.now }) ∧
      (some c9db.now : Option Nat) ≠ none :=
  (C9_publish_course c9db 7
      { id := 7, title := "c", status := CourseStatus.draft, modules := [10] }
      (by simp [findCourse, c9db])).2.2 (by simp) (by simp)

/-- C7: submitting a quiz attempt when the user's attempt count has reached
`max_attempts` raises BadRequest "Maximum attempts reached"; the raise
happens before the new `QuizAttempt` is built, so no attempt row and no
response rows are created (the store is unchanged on error). -/
theorem C7_max_attempts (db : QuizDB) (quiz_id user_id : Nat) (quiz : Quiz)
    (rds : List ResponseInput)
    (hq : db.quizzes.find? (fun q => q.id == quiz_id) = some quiz)
    (hcount : quiz.max_attempts ≤
      (db.attempts.filter (fun a => a.quiz_id == quiz_id && a.user_id == user_id)).length) :
    submit_quiz_attempt db quiz_id user_id rds =
      Except.error ⟨400, "Maximum attempts reached"⟩ := by
  simp only [submit_quiz_attempt, hq]
  rw [if_pos hcount]

/-- A quiz store where user 1 has exhausted the quiz's three attempts. -/
def c7db : QuizDB := {
  quizzes := [{ id := 2, module_id := 1, max_attempts := 3, passing_score := 70 }]
  questions := []
  options := []
  attempts := [
    { id := 10, quiz_id := 2, user_id := 1, attempt_number := 1, total_points := 0,
      earned_points := 0, score := 0, is_passed := false, started_at := 0,
      completed_at := some 0, time_spent := 0 },
    { id := 11, quiz_id := 2, user_id := 1, attempt_number := 2, total_points := 0,
      earned_points := 0, score := 0, is_passed := false, started_at := 0,
      completed_at := some 0, time_spent := 0 },
    { id := 12, quiz_id := 2, user_id := 1, attempt_number := 3, total_points := 0,
      earned_points := 0, score := 0, is_passed := false, started_at := 0,
      completed_at := some 0, time_spent := 0 }]
  responses := []
  next_id := 13
  now := 9 }

/-- Witness for C7: the fourth submission with `max_attempts = 3` raises
BadRequest "Maximum attempts reached". -/
theorem C7_max_attempts_witness :
    submit_quiz_attempt c7db 2 1 [] = Except.error ⟨400, "Maximum attempts reached"⟩ :=
  C7_max_attempts c7db 2 1 { id := 2, module_id := 1, max_attempts := 3, passing_score := 70 }
    [] (by simp [c7db]) (by simp [c7db])

/-- A store with one user and one course, before any enrollment. -/
def c8db : DB := {
  users := [⟨1⟩]
  courses := [{ id := 7, title := "c", status := CourseStatus.published, modules := [10] }]
  enrollments := []
  module_progresses := []
  content_progresses := []
  next_id := 50
  now := 2 }

/-- C8 counterexample: enrolling the same (user, course) pair a second time
fails with HTTP 400 (BadRequest), not with an HTTP 409 Conflict status, so
the failure is not a Conflict-class error in the HTTP sense. -/
theorem C8_counterexample :
    enroll_user (applyEnroll c8db ⟨1, 7, none⟩) ⟨1, 7, none⟩ none =
      Except.error ⟨400, "User is already enrolled in this course"⟩ ∧
    (400 : Nat) ≠ 409 := by
  constructor
  · simp [applyEnroll, enroll_user, c8db, findCourse, findEnrollment]
  · decide

/-- C8 (amended): a second enrollment of the same (user, course) pair fails
with BadRequest 400 "User is already enrolled in this course" (the raise
commits nothing, so the store is unchanged), the first call's row stays the
unique, unaltered enrollment for the pair, and enrolling a nonexistent user
or course fails with NotFound 404 before any row is created. -/
theorem C8_enroll_duplicate (db db' : DB) (ed : EnrollmentCreateSchema)
    (e : Enrollment) (ab1 ab2 : Option Nat)
    (h1 : enroll_user db ed ab1 = Except.ok (db', e)) :
    enroll_user db' ed ab2 = Except.error ⟨400, "User is already enrolled in this course"⟩ ∧
    db'.enrollments.filter
      (fun x => x.user_id == ed.user_id && x.course_id == ed.course_id) = [e] ∧
    (∀ (db0 : DB) (ed0 : EnrollmentCreateSchema) (ab : Option Nat),
      db0.users.find? (fun u => u.id == ed0.user_id) = none →
      enroll_user db0 ed0 ab = Except.error ⟨404, "User not found"⟩) ∧
    (∀ (db0 : DB) (ed0 : EnrollmentCreateSchema) (ab : Option Nat) (u : User),
      db0.users.find? (fun u => u.id == ed0.user_id) = some u →
      findCourse db0 ed0.course_id = none →
      enroll_user db0 ed0 ab = Except.error ⟨404, "Course not found"⟩) := by
  unfold enroll_user at h1
  cases hu : db.users.find? (fun u => u.id == ed.user_id) with
  | none => rw [hu] at h1; exact absurd h1 (by simp)
  | some u =>
  rw [hu] at h1
  cases hcourse : findCourse db ed.course_id with
  | none => rw [hcourse] at h1; exact absurd h1 (by simp)
  | some c =>
  rw [hcourse] at h1
  cases hdup : findEnrollment db ed.user_id ed.course_id with
  | some e0 => rw [hdup] at h1; exact absurd h1 (by simp)
  | none =>
  rw [hdup] at h1
  simp only [Except.ok.injEq, Prod.mk.injEq] at h1
  obtain ⟨hdb', he⟩ := h1
  have hnomatch : ∀ x ∈ db.enrollments,
      ¬ (x.user_id == ed.user_id && x.course_id == ed.course_id) = true := by
    intro x hx
    simpa using List.find?_eq_none.mp hdup x hx
  have hematch : (e.user_id == ed.user_id && e.course_id == ed.course_id) = true := by
    subst he; simp
  refine ⟨?_, ?_, ?_, ?_⟩
  · have husers : db'.users = db.users := by rw [← hdb']
    have hcourses : db'.courses = db.courses := by rw [← hdb']
    have henr : db'.enrollments = db.enrollments ++ [e] := by rw [← hdb', ← he]
    have hfind2 : findEnrollment db' ed.user_id ed.course_id = some e := by
      unfold findEnrollment
      rw [henr, List.find?_append, List.find?_eq_none.mpr (by simpa using hnomatch)]
      simp [hematch]
    have hcourse2 : findCourse db' ed.course_id = some c := by
      unfold findCourse
      rw [hcourses]
      exact hcourse
    simp only [enroll_user, husers, hu, hcourse2, hfind2]
  · have henr : db'.enrollments = db.enrollments ++ [e] := by rw [← hdb', ← he]
    rw [henr, List.filter_append, List.filter_eq_nil_iff.mpr hnomatch]
    simp [hematch]
  · intro db0 ed0 ab h404
    simp only [enroll_user, h404]
  · intro db0 ed0 ab u0 hu0 h404
    simp only [enroll_user, hu0, h404]

/-- The enrollment row created by the first (successful) C8 call. -/
def c8e : Enrollment :=
  { id := 50, user_id := 1, course_id := 7, status := EnrollmentStatus.enrolled,
    enrolled_at := some 2 }

/-- The store after the first (successful) C8 enrollment call. -/
def c8db1 : DB := { c8db with enrollments := [c8e], next_id := 51 }

/-- Witness for the amended C8: the duplicate enrollment of (user 1,
course 7) fails with 400 and leaves the single enrollment row in place. -/
theorem C8_enroll_duplicate_witness :
    enroll_user c8db1 ⟨1, 7, none⟩ none =
      Except.error ⟨400, "User is already enrolled in this course"⟩ ∧
    c8db1.enrollments.filter
      (fun x => x.user_id == (1 : Nat) && x.course_id == (7 : Nat)) = [c8e] := by
  have h := C8_enroll_duplicate c8db c8db1 ⟨1, 7, none⟩ c8e none none
    (by simp [enroll_user, c8db, findCourse, findEnrollment, c8db1, c8e])
  exact ⟨h.1, h.2.1⟩

/-- A store with one enrollment in a course that owns zero modules. -/
def c1db : DB := {
  users := [⟨1⟩]
  courses := [{ id := 7, title := "c", status := CourseStatus.published, modules := [] }]
  enrollments := [{ id := 5, user_id := 1, course_id := 7 }]
  module_progresses := []
  content_progresses := []
  next_id := 90
  now := 4 }

/-- C1 counterexample: for an enrollment in a course with zero modules, the
rollup read returns progress_percentage 0, not 100 as the claim states. -/
theorem C1_counterexample :
    (get_user_progress_for_course c1db 1 7).map (fun s => s.progress_percentage) =
      Except.ok 0 ∧
    ((0 : Rat) = 100 → False) := by
  constructor
  · simp [get_user_progress_for_course, c1db, findEnrollment, findCourse,
      completedModuleCount, Except.map]
  · norm_num

/-- C1 (amended): both rollup reads return progress_percentage equal to
100 × completed_module_count / total_module_count when the course has at
least one module, and equal to 0 — not 100 — when total_module_count is 0;
each returned row's counts are the completed `ModuleProgress` count for the
enrollment and the course's module count. -/
theorem C1_rollup_reads (db : DB) (user_id course_id page limit : Nat) :
    (∀ s, get_user_progress_for_course db user_id course_id = Except.ok s →
      s.completed_modules = completedModuleCount db s.enrollment_id ∧
      (∃ course, findCourse db s.course_id = some course ∧
        s.total_modules = course.modules.length) ∧
      s.progress_percentage =
        (if 0 < s.total_modules then
          (s.completed_modules : Rat) / (s.total_modules : Rat) * 100 else 0)) ∧
    (∀ rows total, get_user_course_progress db user_id page limit = Except.ok (rows, total) →
      ∀ s ∈ rows,
        s.completed_modules = completedModuleCount db s.enrollment_id ∧
        (∃ course, findCourse db s.course_id = some course ∧
          s.total_modules = course.modules.length) ∧
        s.progress_percentage =
          (if 0 < s.total_modules then
            (s.completed_modules : Rat) / (s.total_modules : Rat) * 100 else 0)) := by
  constructor
  · intro s hs
    unfold get_user_progress_for_course at hs
    cases he : findEnrollment db user_id course_id with
    | none => rw [he] at hs; exact absurd hs (by simp)
    | some en =>
    rw [he] at hs
    cases hc : findCourse db course_id with
    | none => rw [hc] at hs; exact absurd hs (by simp)
    | some course =>
    rw [hc] at hs
    simp only [Except.ok.injEq] at hs
    have hcid : course.id = course_id := by
      have := List.find?_some hc
      simpa using this
    subst hs
    refine ⟨rfl, ⟨course, ?_, rfl⟩, by simp⟩
    simpa [hcid] using hc
  · intro rows total hrt s hsmem
    unfold get_user_course_progress at hrt
    cases hu : db.users.find? (fun u => u.id == user_id) with
    | none => rw [hu] at hrt; exact absurd hrt (by simp)
    | some u =>
    rw [hu] at hrt
    simp only [Except.ok.injEq, Prod.mk.injEq] at hrt
    rw [← hrt.1] at hsmem
    obtain ⟨en, _, hfs⟩ := List.mem_filterMap.mp hsmem
    cases hc : findCourse db en.course_id with
    | none => rw [hc] at hfs; exact absurd hfs (by simp)
    | some course =>
    rw [hc] at hfs
    simp only [Option.some.injEq] at hfs
    subst hfs
    refine ⟨rfl, ⟨course, ?_, rfl⟩, by simp⟩
    have hcid : course.id = en.course_id := by
      have := List.find?_some hc
      simpa using this
    simpa [hcid] using hc

/-- A store where user 1 has completed one of the two modules of course 8. -/
def c1db2 : DB := {
  users := [⟨1⟩]
  courses := [{ id := 8, title := "d", status := CourseStatus.published, modules := [10, 11] }]
  enrollments := [{ id := 6, user_id := 1, course_id := 8 }]
  module_progresses := [{ id := 20, enrollment_id := 6, module_id := 10, user_id := 1,
                          status := ProgressStatus.completed }]
  content_progresses := []
  next_id := 90
  now := 4 }

/-- Witness for the amended C1: with one of two modules completed the
single-course rollup read reports the recomputed counts and percentage. -/
theorem C1_rollup_reads_witness :
    ({ enrollment_id := 6, user_id := 1, course_id := 8, course_title := "d",
       enrollment_status := EnrollmentStatus.enrolled, progress_percentage := 1 / 2 * 100,
       started_at := none, completed_at := none, due_date := none, total_modules := 2,
       completed_modules := 1, total_time_spent := 0,
       last_accessed := some 0 } : UserCourseProgressSchema).completed_modules =
        completedModuleCount c1db2 6 ∧
    (∃ course, findCourse c1db2 8 = some course ∧ (2 : Nat) = course.modules.length) ∧
    ((1 : Rat) / 2 * 100) = (if (0 : Nat) < 2 then (1 : Rat) / (2 : Rat) * 100 else 0) := by
  have h := (C1_rollup_reads c1db2 1 8 1 20).1
    { enrollment_id := 6, user_id := 1, course_id := 8, course_title := "d",
      enrollment_status := EnrollmentStatus.enrolled, progress_percentage := 1 / 2 * 100,
      started_at := none, completed_at := none, due_date := none, total_modules := 2,
      completed_modules := 1, total_time_spent := 0, last_accessed := some 0 }
    (by simp [get_user_progress_for_course, c1db2, findEnrollment, findCourse,
      completedModuleCount])
  simpa using h

/-- C5: after every successful record-content-progress call, the updated
module's `ModuleProgress.status` equals the recomputation from the full set
of `ContentProgress` rows now under it: not_started when that set is empty;
completed (with `completed_at` stamped to now) when every row is completed;
in_progress when some but not all rows are completed; not_started when none
are. -/
theorem C5_module_status_recompute (db : DB) (user_id : Nat) (pd : ProgressUpdateSchema)
    (db' : DB) (cp : ContentProgress)
    (h : update_content_progress db user_id pd = Except.ok (db', cp))
    (mp : ModuleProgress) (hmp : mp ∈ db'.module_progresses)
    (hid : mp.id = cp.module_progress_id) :
    (contentRowsOf db' mp.id = [] → mp.status = ProgressStatus.not_started) ∧
    (contentRowsOf db' mp.id ≠ [] →
      completedContentCount db' mp.id = (contentRowsOf db' mp.id).length →
      mp.status = ProgressStatus.completed ∧ mp.completed_at = some db.now) ∧
    (0 < completedContentCount db' mp.id →
      completedContentCount db' mp.id < (contentRowsOf db' mp.id).length →
      mp.status = ProgressStatus.in_progress) ∧
    (contentRowsOf db' mp.id ≠ [] → completedContentCount db' mp.id = 0 →
      mp.status = ProgressStatus.not_started) := by
  obtain ⟨en, db1, mp1, db2, cp2, he, hG, hU, hdb', hcp⟩ := update_content_progress_ok h
  have hid1 : mp.id = mp1.id := by
    have h1 := upsertContentProgress_snd_module_progress_id db1 mp1 pd
    rw [hU] at h1
    rw [hid, hcp]
    exact h1
  have hnow1 : db1.now = db.now := by
    have h2 := getOrCreateModuleProgress_now db user_id en pd
    rw [hG] at h2
    exact h2
  have hnow : db2.now = db.now := by
    have h1 := upsertContentProgress_now db1 mp1 pd
    rw [hU] at h1
    exact h1.trans hnow1
  have hcontent : db'.content_progresses = db2.content_progresses := by
    rw [hdb', updateEnrollmentProgressStatus_content_progresses,
      updateModuleProgressStatus_content_progresses]
  have hmods : db'.module_progresses =
      (updateModuleProgressStatus db2 mp1.id).module_progresses := by
    rw [hdb', updateEnrollmentProgressStatus_module_progresses]
  have hmem1 : mp1 ∈ db2.module_progresses := by
    have h1 := upsertContentProgress_module_progresses db1 mp1 pd
    rw [hU] at h1
    have h2 := getOrCreateModuleProgress_snd_mem db user_id en pd
    rw [hG] at h2
    rw [show db2.module_progresses = db1.module_progresses from h1]
    exact h2
  have hfs : (db2.module_progresses.find? (fun m => m.id == mp1.id)).isSome :=
    List.find?_isSome.mpr ⟨mp1, hmem1, by simp⟩
  cases hf : db2.module_progresses.find? (fun m => m.id == mp1.id) with
  | none => rw [hf] at hfs; simp at hfs
  | some w =>
  rw [hmods] at hmp
  unfold updateModuleProgressStatus at hmp
  rw [hf] at hmp
  simp only [] at hmp
  obtain ⟨r, hrmem, hr⟩ := List.mem_map.mp hmp
  have hrows : contentRowsOf db' mp.id = contentRowsOf db2 mp1.id := by
    unfold contentRowsOf
    rw [hcontent, hid1]
  have hcc : completedContentCount db' mp.id = completedContentCount db2 mp1.id := by
    unfold completedContentCount contentRowsOf
    rw [hcontent, hid1]
  by_cases hcase : r.id = mp1.id
  case neg =>
    rw [if_neg (by simp [hcase])] at hr
    exact absurd (by rw [hr]; exact hid1) hcase
  case pos =>
  rw [if_pos (by simp [hcase])] at hr
  refine ⟨?_, ?_, ?_, ?_⟩
  · intro h1
    rw [hrows] at h1
    rw [← hr]
    simp [h1]
  · intro h1 h2
    rw [hrows] at h1
    rw [hcc, hrows] at h2
    have hemp : (contentRowsOf db2 mp1.id).isEmpty = false := by
      simpa [List.isEmpty_iff] using h1
    rw [← hr]
    simp [hemp, h2, hnow]
  · intro h1 h2
    rw [hcc] at h1
    rw [hcc, hrows] at h2
    have hne : contentRowsOf db2 mp1.id ≠ [] := by
      intro hnil
      rw [hnil] at h2
      simp at h2
    have hemp : (contentRowsOf db2 mp1.id).isEmpty = false := by
      simpa [List.isEmpty_iff] using hne
    rw [← hr]
    simp [hemp, Nat.ne_of_lt h2, h1]
  · intro h1 h2
    rw [hrows] at h1
    rw [hcc] at h2
    have hemp : (contentRowsOf db2 mp1.id).isEmpty = false := by
      simpa [List.isEmpty_iff] using h1
    have hlen : (contentRowsOf db2 mp1.id).length ≠ 0 := by
      simpa using fun hh => h1 (List.eq_nil_of_length_eq_zero hh)
    rw [← hr]
    simp [hemp, h2, hlen, Ne.symm hlen]

/-- A store with one in-progress module progress row and no content rows. -/
def c5db : DB := {
  users := [⟨1⟩]
  courses := [{ id := 8, title := "d", status := CourseStatus.published, modules := [10, 11] }]
  enrollments := [{ id := 6, user_id := 1, course_id := 8 }]
  module_progresses := [{ id := 20, enrollment_id := 6, module_id := 10, user_id := 1,
                          status := ProgressStatus.in_progress }]
  content_progresses := []
  next_id := 90
  now := 4 }

/-- The C5 call: record the module-10 video as completed. -/
def c5pd : ProgressUpdateSchema :=
  { course_id := 8, module_id := 10, content_type := "video",
    status := ProgressStatus.completed, progress_percentage := 100, time_spent := some 30 }

/-- The content row created by the C5 call. -/
def c5cp : ContentProgress :=
  { id := 90, module_progress_id := 20, content_type := "video",
    status := ProgressStatus.completed, progress_percentage := 100, time_spent := 30,
    last_accessed := some 4 }

/-- The module progress row after the C5 call. -/
def c5mp : ModuleProgress :=
  { id := 20, enrollment_id := 6, module_id := 10, user_id := 1,
    status := ProgressStatus.completed, completed_at := some 4 }

/-- The store after the C5 call. -/
def c5db' : DB := {
  users := [⟨1⟩]
  courses := [{ id := 8, title := "d", status := CourseStatus.published, modules := [10, 11] }]
  enrollments := [{ id := 6, user_id := 1, course_id := 8,
                    status := EnrollmentStatus.in_progress,
                    progress_percentage := 1 / 2 * 100 }]
  module_progresses := [c5mp]
  content_progresses := [c5cp]
  next_id := 91
  now := 4 }

/-- Witness for C5: recording the only content item of module 10 as
completed recomputes the module's status to completed with `completed_at`
stamped. -/
theorem C5_module_status_recompute_witness :
    c5mp.status = ProgressStatus.completed ∧ c5mp.completed_at = some c5db.now :=
  (C5_module_status_recompute c5db 1 c5pd c5db' c5cp
      (by simp [update_content_progress, c5db, c5pd, c5db', c5cp, c5mp, findEnrollment,
        findCourse, getOrCreateModuleProgress, upsertContentProgress,
        updateModuleProgressStatus, updateEnrollmentProgressStatus, contentRowsOf,
        completedContentCount, completedModuleCount])
      c5mp (by simp [c5db']) (by simp [c5mp, c5cp])).2.1
    (by simp [contentRowsOf, c5db', c5cp, c5mp])
    (by simp [completedContentCount, contentRowsOf, c5db', c5cp, c5mp])

/-- Store for the C2 scenario: user 1 enrolled in course 8 (one module). -/
def c2db : DB := {
  users := [⟨1⟩]
  courses := [{ id := 8, title := "d", status := CourseStatus.published, modules := [10] }]
  enrollments := [{ id := 6, user_id := 1, course_id := 8 }]
  module_progresses := []
  content_progresses := []
  next_id := 30
  now := 0 }

/-- First C2 call: the module-10 video recorded as completed. -/
def c2video : ProgressUpdateSchema :=
  { course_id := 8, module_id := 10, content_type := "video",
    status := ProgressStatus.completed, progress_percentage := 100 }

/-- Second C2 call: a module-10 document (a new content type) recorded as
in_progress. -/
def c2doc : ProgressUpdateSchema :=
  { course_id := 8, module_id := 10, content_type := "document",
    status := ProgressStatus.in_progress, progress_percentage := 40,
    time_spent := some 5 }

/-- C2 counterexample: after the video is completed the module's status is
completed; recording a document — a previously unseen content type — as
in_progress under the same module regresses the status to in_progress. -/
theorem C2_counterexample :
    (applyUpdate c2db 1 c2video).module_progresses.map (fun mp => mp.status) =
      [ProgressStatus.completed] ∧
    (applyUpdate (applyUpdate c2db 1 c2video) 1 c2doc).module_progresses.map
      (fun mp => mp.status) = [ProgressStatus.in_progress] ∧
    ProgressStatus.in_progress ≠ ProgressStatus.completed := by
  refine ⟨?_, ?_, by decide⟩ <;>
    simp [c2db, c2video, c2doc, applyUpdate, update_content_progress, findEnrollment,
      findCourse, getOrCreateModuleProgress, upsertContentProgress,
      updateModuleProgressStatus, updateEnrollmentProgressStatus, contentRowsOf,
      completedContentCount, completedModuleCount]

/-- C2 (amended): when a content item of a new, previously unseen
content_type is recorded under a module whose existing `ContentProgress`
rows are all completed, the module's status stays completed exactly when
the new item itself is recorded as completed, and regresses to in_progress
otherwise (the recomputation keeps the all-rows-completed iff). -/
theorem C2_module_status_regression (db : DB) (user_id : Nat)
    (pd : ProgressUpdateSchema) (db' : DB) (cp : ContentProgress)
    (en : Enrollment) (mp0 : ModuleProgress)
    (he : findEnrollment db user_id pd.course_id = some en)
    (hmp : db.module_progresses.find?
      (fun m => m.enrollment_id == en.id && m.module_id == pd.module_id) = some mp0)
    (hnew : db.content_progresses.find?
      (fun c => c.module_progress_id == mp0.id && c.content_type == pd.content_type) = none)
    (hall : ∀ c ∈ contentRowsOf db mp0.id, c.status = ProgressStatus.completed)
    (hne : contentRowsOf db mp0.id ≠ [])
    (h : update_content_progress db user_id pd = Except.ok (db', cp)) :
    ∀ mp' ∈ db'.module_progresses, mp'.id = mp0.id →
      mp'.status = (if pd.status = ProgressStatus.completed then ProgressStatus.completed
                    else ProgressStatus.in_progress) := by
  obtain ⟨en2, db1, mp1, db2, cp2, he2, hG, hU, hdb', hcp⟩ := update_content_progress_ok h
  rw [he] at he2
  injection he2 with he2
  subst he2
  have hG' : getOrCreateModuleProgress db user_id en pd = (db, mp0) := by
    unfold getOrCreateModuleProgress
    rw [hmp]
  rw [hG'] at hG
  injection hG with hGdb hGmp
  subst hGdb
  subst hGmp
  have hU' : upsertContentProgress db mp0 pd =
      ({ db with
          content_progresses := db.content_progresses ++
            [⟨db.next_id, mp0.id, pd.content_type, pd.status, pd.progress_percentage,
              pd.time_spent.getD 0, some db.now⟩],
          next_id := db.next_id + 1 },
        ⟨db.next_id, mp0.id, pd.content_type, pd.status, pd.progress_percentage,
          pd.time_spent.getD 0, some db.now⟩) := by
    unfold upsertContentProgress
    rw [hnew]
  rw [hU] at hU'
  injection hU' with hUdb hUcp
  have hcont2 : db2.content_progresses = db.content_progresses ++ [cp2] := by
    rw [hUdb, hUcp]
  have hcp2stat : cp2.status = pd.status := by rw [hUcp]
  have hcp2mpid : cp2.module_progress_id = mp0.id := by rw [hUcp]
  have hmods2 : db2.module_progresses = db.module_progresses := by rw [hUdb]
  have hrows2 : contentRowsOf db2 mp0.id = contentRowsOf db mp0.id ++ [cp2] := by
    unfold contentRowsOf
    rw [hcont2, List.filter_append]
    congr 1
    simp [hcp2mpid]
  have hfilter_all : (contentRowsOf db mp0.id).filter
      (fun c => c.status == ProgressStatus.completed) = contentRowsOf db mp0.id :=
    List.filter_eq_self.mpr (fun c hc => by simp [hall c hc])
  have hcc2 : completedContentCount db2 mp0.id =
      (contentRowsOf db mp0.id).length +
        (if pd.status = ProgressStatus.completed then 1 else 0) := by
    unfold completedContentCount
    rw [hrows2, List.filter_append, List.length_append, hfilter_all]
    congr 1
    by_cases hp : pd.status = ProgressStatus.completed <;> simp [hp, hcp2stat]
  have hlen2 : (contentRowsOf db2 mp0.id).length = (contentRowsOf db mp0.id).length + 1 := by
    rw [hrows2]
    simp
  have hlenpos : 0 < (contentRowsOf db mp0.id).length := List.length_pos.mpr hne
  have hmem0 : mp0 ∈ db2.module_progresses := by
    rw [hmods2]
    exact List.mem_of_find?_eq_some hmp
  have hfs : (db2.module_progresses.find? (fun m => m.id == mp0.id)).isSome :=
    List.find?_isSome.mpr ⟨mp0, hmem0, by simp⟩
  cases hf : db2.module_progresses.find? (fun m => m.id == mp0.id) with
  | none => rw [hf] at hfs; simp at hfs
  | some w =>
  intro mp' hmem' hid'
  rw [hdb', updateEnrollmentProgressStatus_module_progresses] at hmem'
  unfold updateModuleProgressStatus at hmem'
  rw [hf] at hmem'
  simp only [] at hmem'
  obtain ⟨r, hrmem, hr⟩ := List.mem_map.mp hmem'
  by_cases hcase : r.id = mp0.id
  case neg =>
    rw [if_neg (by simp [hcase])] at hr
    exact absurd (by rw [hr]; exact hid') hcase
  case pos =>
  rw [if_pos (by simp [hcase])] at hr
  have hemp : (contentRowsOf db2 mp0.id).isEmpty = false := by
    rw [hrows2]
    simp
  by_cases hp : pd.status = ProgressStatus.completed
  · rw [← hr]
    simp only [hemp, Bool.false_eq_true, if_false]
    rw [if_pos (by rw [hcc2, hlen2]; simp [hp])]
    simp [hp]
  · rw [← hr]
    simp only [hemp, Bool.false_eq_true, if_false]
    rw [if_neg (by rw [hcc2, hlen2]; simp [hp]),
      if_pos (by rw [hcc2]; simp [hp]; omega)]
    simp [hp]

/-- Module 10's progress row after the regressing second call. -/
def c2mpAfter : ModuleProgress :=
  { id := 20, enrollment_id := 6, module_id := 10, user_id := 1,
    status := ProgressStatus.in_progress, completed_at := some 4 }

/-- The document content row created by the regressing second call. -/
def c2cpAfter : ContentProgress :=
  { id := 91, module_progress_id := 20, content_type := "document",
    status := ProgressStatus.in_progress, progress_percentage := 40, time_spent := 5,
    last_accessed := some 4 }

/-- The store after the regressing second call on `c5db'`. -/
def c2dbAfter : DB := {
  users := [⟨1⟩]
  courses := [{ id := 8, title := "d", status := CourseStatus.published, modules := [10, 11] }]
  enrollments := [{ id := 6, user_id := 1, course_id := 8,
                    status := EnrollmentStatus.enrolled,
                    progress_percentage := 0 / 2 * 100 }]
  module_progresses := [c2mpAfter]
  content_progresses := [c5cp, c2cpAfter]
  next_id := 92
  now := 4 }

/-- Witness for the amended C2: recording the module-10 document as
in_progress while the only existing row (the video) is completed regresses
the module status to in_progress. -/
theorem C2_module_status_regression_witness :
    c2mpAfter.status =
      (if (ProgressStatus.in_progress : ProgressStatus) = ProgressStatus.completed
       then ProgressStatus.completed else ProgressStatus.in_progress) :=
  C2_module_status_regression c5db' 1 c2doc c2dbAfter c2cpAfter
    { id := 6, user_id := 1, course_id := 8, status := EnrollmentStatus.in_progress,
      progress_percentage := 1 / 2 * 100 }
    c5mp
    (by simp [findEnrollment, c5db', c2doc])
    (by simp [c5db', c2doc, c5mp])
    (by simp [c5db', c2doc, c5mp, c5cp])
    (by simp [contentRowsOf, c5db', c5cp, c5mp])
    (by simp [contentRowsOf, c5db', c5cp, c5mp])
    (by simp [update_content_progress, c5db', c2doc, c2dbAfter, c2cpAfter, c2mpAfter,
      c5cp, c5mp, findEnrollment, findCourse, getOrCreateModuleProgress,
      upsertContentProgress, updateModuleProgressStatus, updateEnrollmentProgressStatus,
      contentRowsOf, completedContentCount, completedModuleCount])
    c2mpAfter (by simp [c2dbAfter]) (by simp [c2mpAfter, c5mp])

/-- C6: for every record-content-progress call by an enrolled user — the
`ModuleProgress` row for (enrollment, module) being located, or created in
the same call when absent — the `(module_progress, content_type)` row is
upserted: when no `ContentProgress` row exists for that key, one is created
seeded from the input (content type, status, percentage, time-spent-or-0,
last-accessed now); when one exists, its status and percentage are
overwritten with the input values — latest-write-wins, even if the new
percentage is lower — while the time-spent increment is added to the stored
running total rather than overwriting it. -/
theorem C6_content_upsert (db : DB) (user_id : Nat) (pd : ProgressUpdateSchema)
    (db' : DB) (cp : ContentProgress) (en : Enrollment)
    (he : findEnrollment db user_id pd.course_id = some en)
    (h : update_content_progress db user_id pd = Except.ok (db', cp)) :
    ∃ mp,
      (db.module_progresses.find?
          (fun m => m.enrollment_id == en.id && m.module_id == pd.module_id) = some mp ∨
        (db.module_progresses.find?
          (fun m => m.enrollment_id == en.id && m.module_id == pd.module_id) = none ∧
         mp = ⟨db.next_id, en.id, pd.module_id, user_id, ProgressStatus.in_progress,
               some db.now, none, 0⟩)) ∧
      cp.module_progress_id = mp.id ∧
      (db.content_progresses.find?
          (fun c => c.module_progress_id == mp.id && c.content_type == pd.content_type) =
            none →
        cp.content_type = pd.content_type ∧ cp.status = pd.status ∧
        cp.progress_percentage = pd.progress_percentage ∧
        cp.time_spent = pd.time_spent.getD 0 ∧ cp.last_accessed = some db.now ∧
        db'.content_progresses = db.content_progresses ++ [cp]) ∧
      (∀ cp0, db.content_progresses.find?
          (fun c => c.module_progress_id == mp.id && c.content_type == pd.content_type) =
            some cp0 →
        cp.id = cp0.id ∧ cp.status = pd.status ∧
        cp.progress_percentage = pd.progress_percentage ∧
        cp.time_spent = cp0.time_spent + pd.time_spent.getD 0 ∧
        db'.content_progresses =
          db.content_progresses.map (fun c => if c.id == cp0.id then cp else c)) := by
  obtain ⟨en2, db1, mp1, db2, cp2, he2, hG, hU, hdb', hcp⟩ := update_content_progress_ok h
  rw [he] at he2
  injection he2 with he2
  subst he2
  have hcontent : db'.content_progresses = db2.content_progresses := by
    rw [hdb', updateEnrollmentProgressStatus_content_progresses,
      updateModuleProgressStatus_content_progresses]
  have hc1 : db1.content_progresses = db.content_progresses := by
    have h1 := getOrCreateModuleProgress_content_progresses db user_id en pd
    rw [hG] at h1
    exact h1
  have hnow1 : db1.now = db.now := by
    have h1 := getOrCreateModuleProgress_now db user_id en pd
    rw [hG] at h1
    exact h1
  refine ⟨mp1, ?_, ?_, ?_, ?_⟩
  · cases hf : db.module_progresses.find?
        (fun m => m.enrollment_id == en.id && m.module_id == pd.module_id) with
    | some mp0 =>
      have hG' : getOrCreateModuleProgress db user_id en pd = (db, mp0) := by
        unfold getOrCreateModuleProgress
        rw [hf]
      rw [hG'] at hG
      injection hG with hGdb hGmp
      exact Or.inl (by rw [← hGmp])
    | none =>
      have hG' : getOrCreateModuleProgress db user_id en pd =
          ({ db with
              module_progresses := db.module_progresses ++
                [⟨db.next_id, en.id, pd.module_id, user_id, ProgressStatus.in_progress,
                  some db.now, none, 0⟩],
              next_id := db.next_id + 1 },
            ⟨db.next_id, en.id, pd.module_id, user_id, ProgressStatus.in_progress,
              some db.now, none, 0⟩) := by
        unfold getOrCreateModuleProgress
        rw [hf]
      rw [hG'] at hG
      injection hG with hGdb hGmp
      exact Or.inr ⟨rfl, hGmp.symm⟩
  · have h1 := upsertContentProgress_snd_module_progress_id db1 mp1 pd
    rw [hU] at h1
    rw [hcp]
    exact h1
  · intro hnone
    have hnone1 : db1.content_progresses.find?
        (fun c => c.module_progress_id == mp1.id && c.content_type == pd.content_type) =
          none := by
      rw [hc1]
      exact hnone
    have hU' : upsertContentProgress db1 mp1 pd =
        ({ db1 with
            content_progresses := db.content_progresses ++
              [⟨db1.next_id, mp1.id, pd.content_type, pd.status, pd.progress_percentage,
                pd.time_spent.getD 0, some db.now⟩],
            next_id := db1.next_id + 1 },
          ⟨db1.next_id, mp1.id, pd.content_type, pd.status, pd.progress_percentage,
            pd.time_spent.getD 0, some db.now⟩) := by
      unfold upsertContentProgress
      rw [hnone1, hc1, hnow1]
    rw [hU] at hU'
    injection hU' with hUdb hUcp
    have hcpval : cp = ⟨db1.next_id, mp1.id, pd.content_type, pd.status,
        pd.progress_percentage, pd.time_spent.getD 0, some db.now⟩ := by
      rw [hcp, hUcp]
    refine ⟨by rw [hcpval], by rw [hcpval], by rw [hcpval], by rw [hcpval],
      by rw [hcpval], ?_⟩
    rw [hcontent, hUdb, hcpval]
  · intro cp0 hsome
    have hsome1 : db1.content_progresses.find?
        (fun c => c.module_progress_id == mp1.id && c.content_type == pd.content_type) =
          some cp0 := by
      rw [hc1]
      exact hsome
    have hU' : upsertContentProgress db1 mp1 pd =
        ({ db1 with
            content_progresses := db.content_progresses.map (fun c =>
              if c.id == cp0.id then
                { cp0 with
                  status := pd.status
                  progress_percentage := pd.progress_percentage
                  time_spent := cp0.time_spent + pd.time_spent.getD 0
                  last_accessed := some db.now }
              else c) },
          { cp0 with
            status := pd.status
            progress_percentage := pd.progress_percentage
            time_spent := cp0.time_spent + pd.time_spent.getD 0
            last_accessed := some db.now }) := by
      unfold upsertContentProgress
      rw [hsome1, hc1, hnow1]
    rw [hU] at hU'
    injection hU' with hUdb hUcp
    have hcpval : cp = { cp0 with
        status := pd.status
        progress_percentage := pd.progress_percentage
        time_spent := cp0.time_spent + pd.time_spent.getD 0
        last_accessed := some db.now } := by
      rw [hcp, hUcp]
    refine ⟨by rw [hcpval], by rw [hcpval], by rw [hcpval], by rw [hcpval], ?_⟩
    rw [hcontent, hUdb, hcpval]

/-- The module progress row created by the first-interaction C6 call. -/
def c6mp : ModuleProgress :=
  { id := 30, enrollment_id := 6, module_id := 10, user_id := 1,
    status := ProgressStatus.completed, started_at := some 0, completed_at := some 0 }

/-- The content row created by the first-interaction C6 call. -/
def c6cp : ContentProgress :=
  { id := 31, module_progress_id := 30, content_type := "video",
    status := ProgressStatus.completed, progress_percentage := 100, time_spent := 0,
    last_accessed := some 0 }

/-- The store after the first-interaction C6 call on `c2db`. -/
def c6db' : DB := {
  users := [⟨1⟩]
  courses := [{ id := 8, title := "d", status := CourseStatus.published, modules := [10] }]
  enrollments := [{ id := 6, user_id := 1, course_id := 8,
                    status := EnrollmentStatus.completed,
                    progress_percentage := 1 / 1 * 100, completed_at := some 0 }]
  module_progresses := [c6mp]
  content_progresses := [c6cp]
  next_id := 32
  now := 0 }

/-- Witness for C6: the very first interaction with module 10 — no
`ModuleProgress` row exists yet, so one is created in the same call —
creates the video content row seeded from the input and appends it. -/
theorem C6_content_upsert_witness :
    c6cp.content_type = c2video.content_type ∧ c6cp.status = c2video.status ∧
    c6cp.progress_percentage = c2video.progress_percentage ∧
    c6cp.time_spent = c2video.time_spent.getD 0 ∧
    c6cp.last_accessed = some c2db.now ∧
    c6db'.content_progresses = c2db.content_progresses ++ [c6cp] := by
  obtain ⟨mp, hbranch, hmpid, hcreate, hupdate⟩ :=
    C6_content_upsert c2db 1 c2video c6db' c6cp { id := 6, user_id := 1, course_id := 8 }
      (by simp [findEnrollment, c2db, c2video])
      (by simp [update_content_progress, c2db, c2video, c6db', c6cp, c6mp,
        findEnrollment, findCourse, getOrCreateModuleProgress, upsertContentProgress,
        updateModuleProgressStatus, updateEnrollmentProgressStatus, contentRowsOf,
        completedContentCount, completedModuleCount])
  rcases hbranch with hfound | ⟨hnone, hmp⟩
  · simp [c2db] at hfound
  · subst hmp
    exact hcreate (by simp [c2db])

/-- Store for C4: user 1 and course 8 whose only module is 10. -/
def c4db0 : DB := {
  users := [⟨1⟩]
  courses := [{ id := 8, title := "d", status := CourseStatus.published, modules := [10] }]
  enrollments := []
  module_progresses := []
  content_progresses := []
  next_id := 100
  now := 0 }

/-- A record-content-progress call against module 99, which does not belong
to course 8 (the operation performs no validation of the module id). -/
def c4bogus : ProgressUpdateSchema :=
  { course_id := 8, module_id := 99, content_type := "video",
    status := ProgressStatus.completed, progress_percentage := 100 }

/-- The same call against the course's real module 10. -/
def c4real : ProgressUpdateSchema :=
  { course_id := 8, module_id := 10, content_type := "video",
    status := ProgressStatus.completed, progress_percentage := 100 }

/-- C4 counterexample: enrolling user 1 in course 8 and completing both the
foreign module 99 and the real module 10 stores progress_percentage 200,
outside [0, 100]. -/
theorem C4_counterexample :
    ((applyUpdate (applyUpdate (applyEnroll c4db0 ⟨1, 8, none⟩) 1 c4bogus) 1
        c4real).enrollments.map (fun e => e.progress_percentage)) = [200] ∧
    ¬ ((200 : Rat) ≤ 100) := by
  constructor
  · simp [c4db0, c4bogus, c4real, applyUpdate, applyEnroll, enroll_user,
      update_content_progress, findEnrollment, findCourse, getOrCreateModuleProgress,
      upsertContentProgress, updateModuleProgressStatus, updateEnrollmentProgressStatus,
      contentRowsOf, completedContentCount, completedModuleCount]
    norm_num
  · norm_num

/-- Filtering and projecting commute with a map that preserves the filter
predicate and the projection. -/
lemma filter_map_invariant {α β : Type} (g : α → α) (p : α → Bool) (f : α → β)
    (hg : ∀ x, p (g x) = p x ∧ f (g x) = f x) :
    ∀ l : List α, ((l.map g).filter p).map f = (l.filter p).map f := by
  intro l
  induction l with
  | nil => rfl
  | cons a t ih =>
    simp only [List.map_cons, List.filter_cons]
    rw [(hg a).1]
    cases hpa : p a
    · simpa using ih
    · simp [ih, (hg a).2]

/-- Recomputing one module's status does not change which modules an
enrollment has progress rows for. -/
lemma enrollmentModuleIds_updateModuleProgressStatus (db : DB) (mpid eid : Nat) :
    enrollmentModuleIds (updateModuleProgressStatus db mpid) eid =
      enrollmentModuleIds db eid := by
  unfold updateModuleProgressStatus
  split
  · rfl
  · unfold enrollmentModuleIds
    exact filter_map_invariant _ _ _
      (fun x => by
        by_cases hx : (x.id == mpid) = true
        · rw [if_pos hx]
          split
          · exact ⟨rfl, rfl⟩
          · split
            · exact ⟨rfl, rfl⟩
            · split
              · exact ⟨rfl, rfl⟩
              · exact ⟨rfl, rfl⟩
        · rw [if_neg hx]
          exact ⟨rfl, rfl⟩)
      db.module_progresses

/-- The locate-or-create step either leaves the module-progress table alone
or appends exactly the returned row, keyed by the enrollment and the call's
module id, and only when no row for that key existed. -/
lemma getOrCreateModuleProgress_cases (db : DB) (uid : Nat) (en : Enrollment)
    (pd : ProgressUpdateSchema) :
    (getOrCreateModuleProgress db uid en pd).1.module_progresses = db.module_progresses ∨
    ((getOrCreateModuleProgress db uid en pd).1.module_progresses =
        db.module_progresses ++ [(getOrCreateModuleProgress db uid en pd).2] ∧
      (getOrCreateModuleProgress db uid en pd).2.enrollment_id = en.id ∧
      (getOrCreateModuleProgress db uid en pd).2.module_id = pd.module_id ∧
      ∀ mp ∈ db.module_progresses,
        ¬ (mp.enrollment_id == en.id && mp.module_id == pd.module_id) = true) := by
  unfold getOrCreateModuleProgress
  split
  · exact Or.inl rfl
  · rename_i hf
    exact Or.inr ⟨rfl, rfl, rfl, fun mp hmp => by
      simpa using List.find?_eq_none.mp hf mp hmp⟩

/-- Recomputing an enrollment's rollup keeps every stored percentage inside
[0, 100], provided the enrollment's completed-module count cannot exceed the
course's module count. -/
lemma updateEnrollment_pct_bounds (db3 : DB) (en : Enrollment) (course : Course)
    (hfind : db3.enrollments.find? (fun e => e.id == en.id) = some en)
    (hc : findCourse db3 en.course_id = some course)
    (hcount : completedModuleCount db3 en.id ≤ course.modules.length)
    (hprev : ∀ e ∈ db3.enrollments,
      0 ≤ e.progress_percentage ∧ e.progress_percentage ≤ 100) :
    ∀ e ∈ (updateEnrollmentProgressStatus db3 en.id).enrollments,
      0 ≤ e.progress_percentage ∧ e.progress_percentage ≤ 100 := by
  intro e hmem
  unfold updateEnrollmentProgressStatus at hmem
  rw [hfind] at hmem
  simp only [] at hmem
  rw [hc] at hmem
  simp only [] at hmem
  obtain ⟨r, hrmem, hr⟩ := List.mem_map.mp hmem
  by_cases hcase : (r.id == en.id) = true
  case neg =>
    rw [if_neg hcase] at hr
    rw [← hr]
    exact hprev r hrmem
  case pos =>
  rw [if_pos hcase] at hr
  by_cases hzero : course.modules.length = 0
  · rw [if_pos (by simp [hzero])] at hr
    rw [← hr]
    norm_num
  · rw [if_neg (by simp [hzero])] at hr
    have hlt : (0 : Rat) < (course.modules.length : Rat) := by
      exact_mod_cast Nat.pos_of_ne_zero hzero
    have hle : (completedModuleCount db3 en.id : Rat) ≤ (course.modules.length : Rat) := by
      exact_mod_cast hcount
    have hnn : (0 : Rat) ≤ (completedModuleCount db3 en.id : Rat) := by positivity
    have hbounds :
        0 ≤ (completedModuleCount db3 en.id : Rat) / (course.modules.length : Rat) * 100 ∧
        (completedModuleCount db3 en.id : Rat) / (course.modules.length : Rat) * 100 ≤ 100 := by
      constructor
      · positivity
      · calc (completedModuleCount db3 en.id : Rat) / (course.modules.length : Rat) * 100
            ≤ 1 * 100 := by
              apply mul_le_mul_of_nonneg_right _ (by norm_num)
              exact (div_le_one hlt).mpr hle
          _ = 100 := by norm_num
    split at hr <;> rw [← hr]
    · exact hbounds
    · split <;> exact hbounds

/-- C4 (amended): after a record-content-progress call, every stored
Enrollment.progress_percentage lies within [0, 100] provided each of the
enrollment's `ModuleProgress` rows references a distinct module of the
enrollment's course and the call's module_id is one of the course's modules.
The operation does not validate module_id, and — as the counterexample
shows — completing a module_id foreign to the course pushes the stored
percentage above 100. -/
theorem C4_percentage_bounds (db : DB) (user_id : Nat) (pd : ProgressUpdateSchema)
    (db' : DB) (cp : ContentProgress) (en : Enrollment) (course : Course)
    (he : findEnrollment db user_id pd.course_id = some en)
    (hfind_id : db.enrollments.find? (fun e => e.id == en.id) = some en)
    (hc : findCourse db en.course_id = some course)
    (hin : pd.module_id ∈ course.modules)
    (hsub : ∀ m ∈ enrollmentModuleIds db en.id, m ∈ course.modules)
    (hnodup : (enrollmentModuleIds db en.id).Nodup)
    (hprev : ∀ e ∈ db.enrollments,
      0 ≤ e.progress_percentage ∧ e.progress_percentage ≤ 100)
    (h : update_content_progress db user_id pd = Except.ok (db', cp)) :
    ∀ e ∈ db'.enrollments, 0 ≤ e.progress_percentage ∧ e.progress_percentage ≤ 100 := by
  obtain ⟨en2, db1, mp1, db2, cp2, he2, hG, hU, hdb', hcp⟩ := update_content_progress_ok h
  rw [he] at he2
  injection he2 with he2
  subst he2
  have hmods21 : db2.module_progresses = db1.module_progresses := by
    have h1 := upsertContentProgress_module_progresses db1 mp1 pd
    rw [hU] at h1
    exact h1
  -- the enrollment's module ids after the locate-or-create step
  have hids2 : (∀ m ∈ enrollmentModuleIds db2 en.id, m ∈ course.modules) ∧
      (enrollmentModuleIds db2 en.id).Nodup := by
    rcases getOrCreateModuleProgress_cases db user_id en pd with hsame | ⟨happ, henr, hmid, hnone⟩
    · rw [hG] at hsame
      have : enrollmentModuleIds db2 en.id = enrollmentModuleIds db en.id := by
        unfold enrollmentModuleIds
        rw [hmods21, hsame]
      rw [this]
      exact ⟨hsub, hnodup⟩
    · rw [hG] at happ henr hmid
      have happ' : db1.module_progresses = db.module_progresses ++ [mp1] := happ
      have henr' : mp1.enrollment_id = en.id := henr
      have hmid' : mp1.module_id = pd.module_id := hmid
      have hids : enrollmentModuleIds db2 en.id =
          enrollmentModuleIds db en.id ++ [pd.module_id] := by
        unfold enrollmentModuleIds
        rw [hmods21, happ', List.filter_append]
        have hone : List.filter (fun mp => mp.enrollment_id == en.id) [mp1] = [mp1] := by
          simp [henr']
        rw [hone]
        simp [hmid']
      have hnotmem : pd.module_id ∉ enrollmentModuleIds db en.id := by
        intro hmem
        unfold enrollmentModuleIds at hmem
        obtain ⟨mp, hmpmem, hmpeq⟩ := List.mem_map.mp hmem
        have hmpfilter := List.of_mem_filter hmpmem
        exact hnone mp (List.mem_of_mem_filter hmpmem)
          (by simp [hmpeq, by simpa using hmpfilter])
      rw [hids]
      constructor
      · intro m hm
        rcases List.mem_append.mp hm with hm1 | hm2
        · exact hsub m hm1
        · simpa using (by simpa using hm2) ▸ hin
      · rw [List.nodup_append]
        exact ⟨hnodup, List.nodup_singleton _, by simpa using hnotmem⟩
  -- the enrollment's module ids survive the module-status recomputation
  have hids3 : (∀ m ∈ enrollmentModuleIds (updateModuleProgressStatus db2 mp1.id) en.id,
        m ∈ course.modules) ∧
      (enrollmentModuleIds (updateModuleProgressStatus db2 mp1.id) en.id).Nodup := by
    rw [enrollmentModuleIds_updateModuleProgressStatus]
    exact hids2
  -- the completed-module count is bounded by the course's module count
  have hcount : completedModuleCount (updateModuleProgressStatus db2 mp1.id) en.id ≤
      course.modules.length := by
    set db3 := updateModuleProgressStatus db2 mp1.id with hdb3
    have hA : db3.module_progresses.filter
        (fun mp => mp.enrollment_id == en.id && mp.status == ProgressStatus.completed) =
        (db3.module_progresses.filter
          (fun mp => mp.status == ProgressStatus.completed)).filter
            (fun mp => mp.enrollment_id == en.id) := by
      rw [List.filter_filter]
    have hsubl : List.Sublist
        ((db3.module_progresses.filter
          (fun mp => mp.status == ProgressStatus.completed)).filter
            (fun mp => mp.enrollment_id == en.id))
        (db3.module_progresses.filter (fun mp => mp.enrollment_id == en.id)) :=
      List.Sublist.filter _ (List.filter_sublist db3.module_progresses)
    have hmapsubl : List.Sublist
        (((db3.module_progresses.filter
          (fun mp => mp.status == ProgressStatus.completed)).filter
            (fun mp => mp.enrollment_id == en.id)).map (fun mp => mp.module_id))
        (enrollmentModuleIds db3 en.id) := by
      unfold enrollmentModuleIds
      exact hsubl.map _
    have hnodupA : (((db3.module_progresses.filter
        (fun mp => mp.status == ProgressStatus.completed)).filter
          (fun mp => mp.enrollment_id == en.id)).map (fun mp => mp.module_id)).Nodup :=
      hids3.2.sublist hmapsubl
    have hsubA : (((db3.module_progresses.filter
        (fun mp => mp.status == ProgressStatus.completed)).filter
          (fun mp => mp.enrollment_id == en.id)).map (fun mp => mp.module_id)) ⊆
        course.modules := fun m hm => hids3.1 m (hmapsubl.subset hm)
    have hperm := (List.subperm_of_subset hnodupA hsubA).length_le
    unfold completedModuleCount
    rw [hA]
    calc ((db3.module_progresses.filter
          (fun mp => mp.status == ProgressStatus.completed)).filter
            (fun mp => mp.enrollment_id == en.id)).length
        = (((db3.module_progresses.filter
            (fun mp => mp.status == ProgressStatus.completed)).filter
              (fun mp => mp.enrollment_id == en.id)).map (fun mp => mp.module_id)).length :=
          (List.length_map _ _).symm
      _ ≤ course.modules.length := hperm
  -- enrollments and courses are untouched before the final recomputation
  have henr3 : (updateModuleProgressStatus db2 mp1.id).enrollments = db.enrollments := by
    rw [updateModuleProgressStatus_enrollments]
    have h1 := upsertContentProgress_enrollments db1 mp1 pd
    rw [hU] at h1
    rw [h1]
    have h2 := getOrCreateModuleProgress_enrollments db user_id en pd
    rw [hG] at h2
    exact h2
  have hcrs3 : (updateModuleProgressStatus db2 mp1.id).courses = db.courses := by
    rw [updateModuleProgressStatus_courses]
    have h1 := upsertContentProgress_courses db1 mp1 pd
    rw [hU] at h1
    rw [h1]
    have h2 := getOrCreateModuleProgress_courses db user_id en pd
    rw [hG] at h2
    exact h2
  rw [hdb']
  apply updateEnrollment_pct_bounds
  · rw [henr3]
    exact hfind_id
  · unfold findCourse
    rw [hcrs3]
    exact hc
  · exact hcount
  · rw [henr3]
    exact hprev

/-- The enrollment row stored by the valid module-10 call on `c5db`. -/
def c4enAfter : Enrollment :=
  { id := 6, user_id := 1, course_id := 8, status := EnrollmentStatus.in_progress,
    progress_percentage := 1 / 2 * 100 }

/-- Witness for the amended C4: the valid module-10 call on `c5db` stores a
percentage of 50, which lies within [0, 100]. -/
theorem C4_percentage_bounds_witness :
    (0 : Rat) ≤ c4enAfter.progress_percentage ∧ c4enAfter.progress_percentage ≤ 100 :=
  (C4_percentage_bounds c5db 1 c5pd c5db' c5cp
      { id := 6, user_id := 1, course_id := 8 }
      { id := 8, title := "d", status := CourseStatus.published, modules := [10, 11] }
      (by simp [findEnrollment, c5db, c5pd])
      (by simp [c5db])
      (by simp [findCourse, c5db])
      (by simp [c5pd])
      (by simp [enrollmentModuleIds, c5db])
      (by simp [enrollmentModuleIds, c5db])
      (by
        intro e hmem
        simp [c5db] at hmem
        simp [hmem])
      (by simp [update_content_progress, c5db, c5pd, c5db', c5cp, c5mp, findEnrollment,
        findCourse, getOrCreateModuleProgress, upsertContentProgress,
        updateModuleProgressStatus, updateEnrollmentProgressStatus, contentRowsOf,
        completedContentCount, completedModuleCount]))
    c4enAfter
    (by simp [c5db', c4enAfter])

/-- The claim's specification-side per-response formula: a submitted
response earns its question's points when the selected option's
`is_correct` is true (multiple-choice/true-false) or when its text response
is non-empty after stripping whitespace (short-answer/essay); it earns 0
otherwise, and 0 when its question id matches no stored question. -/
def specResponseEarned (db : QuizDB) (rd : ResponseInput) : Rat :=
  match db.questions.find? (fun q => q.id == rd.question_id) with
  | none => 0
  | some q =>
    match q.question_type with
    | QuestionType.multiple_choice | QuestionType.true_false =>
      match rd.selected_option_id with
      | none => 0
      | some oid =>
        match db.options.find? (fun o => o.id == oid) with
        | none => 0
        | some opt => if opt.is_correct then q.points else 0
    | QuestionType.short_answer | QuestionType.essay =>
      match rd.text_response with
      | none => 0
      | some t => if t.trim ≠ "" then q.points else 0

/-- The claim's earned-points formula: the sum of the per-response earnings
over the submitted responses. -/
def specEarnedPoints (db : QuizDB) (rds : List ResponseInput) : Rat :=
  (rds.map (specResponseEarned db)).sum

/-- Stripping the empty string yields the empty string. -/
lemma trim_empty : "".trim = "" := by
  show ("".toSubstring.trim).toString = ""
  simp only [String.toSubstring, Substring.trim]
  rw [Substring.takeWhileAux]
  simp only [String.endPos, String.utf8ByteSize]
  norm_num [String.utf8ByteSize.go]
  rw [Substring.takeRightWhileAux]
  norm_num [Substring.toString, String.extract]

/-- The code's truthy-and-non-blank text check agrees with "non-empty after
stripping whitespace". -/
lemma text_nonblank_iff (t : String) :
    (!t.isEmpty && !t.trim.isEmpty) = true ↔ t.trim ≠ "" := by
  constructor
  · intro h
    have h2 := (Bool.and_eq_true _ _).mp h
    intro hcon
    have h3 : t.trim.isEmpty = false := by simpa using h2.2
    have h4 : t.trim.isEmpty = true := (String.isEmpty_iff t.trim).mpr hcon
    rw [h4] at h3
    exact absurd h3 (by simp)
  · intro h
    have ht : t.trim.isEmpty = false := by
      cases hh : t.trim.isEmpty
      · rfl
      · exact absurd ((String.isEmpty_iff t.trim).mp hh) h
    have hne : t ≠ "" := by
      intro hcon
      apply h
      rw [hcon]
      exact trim_empty
    have htf : t.isEmpty = false := by
      cases hh : t.isEmpty
      · rfl
      · exact absurd ((String.isEmpty_iff t).mp hh) hne
    simp [ht, htf]

/-- One grading step accumulates exactly the specification-side earning of
the response. -/
lemma gradeStep_fst (db : QuizDB) (aid : Nat) (acc : Rat × List QuizResponse)
    (rd : ResponseInput) :
    (gradeStep db aid acc rd).1 = acc.1 + specResponseEarned db rd := by
  unfold gradeStep specResponseEarned
  cases hq : db.questions.find? (fun q => q.id == rd.question_id) with
  | none => simp
  | some q =>
    simp only []
    congr 1
    unfold responseIsCorrect
    cases hqt : q.question_type
    case multiple_choice | true_false =>
      cases rd.selected_option_id with
      | none => simp
      | some oid =>
        cases ho : db.options.find? (fun o => o.id == oid) with
        | none => simp [ho]
        | some opt => cases hoc : opt.is_correct <;> simp [ho, hoc]
    case short_answer | essay =>
      cases rd.text_response with
      | none => simp
      | some t => simp only [text_nonblank_iff t]

/-- Folding the grading step accumulates the specification-side sum. -/
lemma gradeFold_fst_aux (db : QuizDB) (aid : Nat) :
    ∀ (rds : List ResponseInput) (acc : Rat × List QuizResponse),
      (rds.foldl (gradeStep db aid) acc).1 = acc.1 + specEarnedPoints db rds := by
  intro rds
  induction rds with
  | nil =>
    intro acc
    simp [specEarnedPoints]
  | cons rd t ih =>
    intro acc
    rw [List.foldl_cons, ih, gradeStep_fst]
    unfold specEarnedPoints
    rw [List.map_cons, List.sum_cons]
    ring

/-- The grading loop's accumulated earned points equal the
specification-side sum. -/
lemma gradeFold_fst (db : QuizDB) (aid : Nat) (rds : List ResponseInput) :
    (gradeFold db aid rds).1 = specEarnedPoints db rds := by
  unfold gradeFold
  rw [gradeFold_fst_aux]
  simp

/-- A grading step only appends rows that reference a stored question. -/
lemma gradeStep_snd_mem (db : QuizDB) (aid : Nat) (acc : Rat × List QuizResponse)
    (rd : ResponseInput) :
    ∀ r ∈ (gradeStep db aid acc rd).2,
      r ∈ acc.2 ∨ ∃ q ∈ db.questions, r.question_id = q.id := by
  intro r hr
  unfold gradeStep at hr
  cases hq : db.questions.find? (fun q => q.id == rd.question_id) with
  | none =>
    rw [hq] at hr
    exact Or.inl hr
  | some q =>
    rw [hq] at hr
    simp only [] at hr
    rcases List.mem_append.mp hr with h1 | h2
    · exact Or.inl h1
    · refine Or.inr ⟨q, List.mem_of_find?_eq_some hq, ?_⟩
      have h3 : r = _ := List.mem_singleton.mp h2
      rw [h3]

/-- Rows produced by the grading loop reference stored questions. -/
lemma gradeFold_snd_mem (db : QuizDB) (aid : Nat) :
    ∀ (rds : List ResponseInput) (acc : Rat × List QuizResponse),
      ∀ r ∈ (rds.foldl (gradeStep db aid) acc).2,
        r ∈ acc.2 ∨ ∃ q ∈ db.questions, r.question_id = q.id := by
  intro rds
  induction rds with
  | nil =>
    intro acc r hr
    exact Or.inl hr
  | cons rd t ih =>
    intro acc r hr
    rw [List.foldl_cons] at hr
    rcases ih _ r hr with h1 | h2
    · exact gradeStep_snd_mem db aid acc rd r h1
    · exact Or.inr h2

/-- C3: for every submitted quiz attempt, `earned_points` equals the sum of
points over responses whose selected option has `is_correct` true
(multiple-choice/true-false) plus points of short-answer/essay responses
whose text is non-empty after stripping whitespace; `score` equals
earned_points / (sum of points over all of the quiz's questions) × 100, and
0 when that sum is 0 (question points are schema-constrained positive,
whence the nonnegativity hypothesis); `is_passed` holds iff
`score >= passing_score`. -/
theorem C3_quiz_grading (db : QuizDB) (quiz_id user_id : Nat) (quiz : Quiz)
    (rds : List ResponseInput) (db' : QuizDB) (att : QuizAttempt)
    (hq : db.quizzes.find? (fun q => q.id == quiz_id) = some quiz)
    (hpts : ∀ q ∈ db.questions, q.quiz_id = quiz_id → 0 ≤ q.points)
    (h : submit_quiz_attempt db quiz_id user_id rds = Except.ok (db', att)) :
    att.earned_points = specEarnedPoints db rds ∧
    (quizTotalPoints db quiz_id = 0 → att.score = 0) ∧
    (quizTotalPoints db quiz_id ≠ 0 →
      att.score = att.earned_points / quizTotalPoints db quiz_id * 100) ∧
    (att.is_passed = true ↔ quiz.passing_score ≤ att.score) := by
  unfold submit_quiz_attempt at h
  rw [hq] at h
  simp only [] at h
  by_cases hcnt : quiz.max_attempts ≤
      (db.attempts.filter (fun a => a.quiz_id == quiz_id && a.user_id == user_id)).length
  · rw [if_pos hcnt] at h
    exact absurd h (by simp)
  · rw [if_neg hcnt] at h
    simp only [Except.ok.injEq, Prod.mk.injEq] at h
    obtain ⟨hdb', hatt⟩ := h
    have htot : 0 ≤ quizTotalPoints db quiz_id := by
      unfold quizTotalPoints
      apply List.sum_nonneg
      intro x hx
      obtain ⟨q, hqmem, hqeq⟩ := List.mem_map.mp hx
      have hfilt := List.of_mem_filter hqmem
      rw [← hqeq]
      exact hpts q (List.mem_of_mem_filter hqmem) (by simpa using hfilt)
    subst hatt
    refine ⟨?_, ?_, ?_, ?_⟩
    · exact gradeFold_fst db db.next_id rds
    · intro h0
      simp only []
      rw [h0]
      simp
    · intro hne
      have hpos : 0 < quizTotalPoints db quiz_id := lt_of_le_of_ne htot (Ne.symm hne)
      simp only []
      rw [if_pos hpos]
    · exact decide_eq_true_iff

/-- C10: a submitted response whose question_id matches no stored question
is silently skipped: the call returns exactly what it would return without
that response (so no `QuizResponse` row and no points for it, and the
attempt still succeeds); every newly persisted response row references a
stored question (so none references the unknown id); and the score
denominator is the sum of points over all of the quiz's questions
regardless of which questions were answered. -/
theorem C10_unknown_question_skipped (db : QuizDB) (quiz_id user_id : Nat)
    (rs1 rs2 : List ResponseInput) (rd : ResponseInput) (db' : QuizDB)
    (att : QuizAttempt)
    (hqnone : db.questions.find? (fun q => q.id == rd.question_id) = none)
    (h : submit_quiz_attempt db quiz_id user_id (rs1 ++ rd :: rs2) = Except.ok (db', att)) :
    submit_quiz_attempt db quiz_id user_id (rs1 ++ rs2) = Except.ok (db', att) ∧
    (∀ r ∈ db'.responses, r ∈ db.responses ∨ r.question_id ≠ rd.question_id) ∧
    att.total_points = quizTotalPoints db quiz_id := by
  have hfold : ∀ aid, gradeFold db aid (rs1 ++ rd :: rs2) = gradeFold db aid (rs1 ++ rs2) := by
    intro aid
    unfold gradeFold
    rw [List.foldl_append, List.foldl_append, List.foldl_cons]
    congr 1
    unfold gradeStep
    rw [hqnone]
  have hcall : submit_quiz_attempt db quiz_id user_id (rs1 ++ rs2) =
      submit_quiz_attempt db quiz_id user_id (rs1 ++ rd :: rs2) := by
    unfold submit_quiz_attempt
    simp only [hfold]
  refine ⟨hcall.trans h, ?_, ?_⟩
  · unfold submit_quiz_attempt at h
    cases hquiz : db.quizzes.find? (fun q => q.id == quiz_id) with
    | none =>
      rw [hquiz] at h
      exact absurd h (by simp)
    | some quiz =>
    rw [hquiz] at h
    simp only [] at h
    by_cases hcnt : quiz.max_attempts ≤
        (db.attempts.filter (fun a => a.quiz_id == quiz_id && a.user_id == user_id)).length
    · rw [if_pos hcnt] at h
      exact absurd h (by simp)
    · rw [if_neg hcnt] at h
      simp only [Except.ok.injEq, Prod.mk.injEq] at h
      obtain ⟨hdb', hatt⟩ := h
      intro r hr
      rw [← hdb'] at hr
      simp only [] at hr
      rcases List.mem_append.mp hr with h1 | h2
      · exact Or.inl h1
      · rcases gradeFold_snd_mem db db.next_id (rs1 ++ rd :: rs2) (0, []) r h2 with
          hemp | ⟨q, hqmem, hqid⟩
        · simp at hemp
        · refine Or.inr ?_
          intro hcon
          have : (db.questions.find? (fun q => q.id == rd.question_id)).isSome :=
            List.find?_isSome.mpr ⟨q, hqmem, by simp [← hqid, hcon]⟩
          rw [hqnone] at this
          simp at this
  · unfold submit_quiz_attempt at h
    cases hquiz : db.quizzes.find? (fun q => q.id == quiz_id) with
    | none =>
      rw [hquiz] at h
      exact absurd h (by simp)
    | some quiz =>
    rw [hquiz] at h
    simp only [] at h
    by_cases hcnt : quiz.max_attempts ≤
        (db.attempts.filter (fun a => a.quiz_id == quiz_id && a.user_id == user_id)).length
    · rw [if_pos hcnt] at h
      exact absurd h (by simp)
    · rw [if_neg hcnt] at h
      simp only [Except.ok.injEq, Prod.mk.injEq] at h
      obtain ⟨hdb', hatt⟩ := h
      rw [← hatt]

/-- A quiz store: quiz 2 (passing score 50, 3 attempts) with a 2-point
multiple-choice question and a 3-point true/false question. -/
def c3db : QuizDB := {
  quizzes := [{ id := 2, module_id := 1, max_attempts := 3, passing_score := 50 }]
  questions := [{ id := 4, quiz_id := 2, question_type := QuestionType.multiple_choice,
                  points := 2 },
                { id := 5, quiz_id := 2, question_type := QuestionType.true_false,
                  points := 3 }]
  options := [{ id := 7, question_id := 4, is_correct := true },
              { id := 9, question_id := 5, is_correct := true }]
  attempts := []
  responses := []
  next_id := 40
  now := 9 }

/-- Correct answer to question 4. -/
def c3r1 : ResponseInput := { question_id := 4, selected_option_id := some 7 }

/-- Correct answer to question 5. -/
def c3r2 : ResponseInput := { question_id := 5, selected_option_id := some 9 }

/-- The two-response submission. -/
def c3rs : List ResponseInput := [c3r1, c3r2]

/-- The attempt row the submission persists. -/
def c3att : QuizAttempt :=
  { id := 40, quiz_id := 2, user_id := 1, attempt_number := 1, total_points := 5,
    earned_points := 5, score := 100, is_passed := true, started_at := 9,
    completed_at := some 9, time_spent := 0 }

/-- The response rows the submission persists. -/
def c3resp : List QuizResponse :=
  [{ attempt_id := 40, question_id := 4, selected_option_id := some 7,
     text_response := none, is_correct := true, points_earned := 2 },
   { attempt_id := 40, question_id := 5, selected_option_id := some 9,
     text_response := none, is_correct := true, points_earned := 3 }]

/-- The quiz store after the submission. -/
def c3db' : QuizDB := { c3db with attempts := [c3att], responses := c3resp, next_id := 41 }

/-- Witness for C3: the two correct answers earn 5 of 5 points, and the
attempt passes since 100 ≥ 50. -/
theorem C3_quiz_grading_witness :
    c3att.earned_points = specEarnedPoints c3db c3rs ∧
    (c3att.is_passed = true ↔ (50 : Rat) ≤ c3att.score) := by
  have h := C3_quiz_grading c3db 2 1
    { id := 2, module_id := 1, max_attempts := 3, passing_score := 50 }
    c3rs c3db' c3att
    (by simp [c3db])
    (by
      intro q hq _
      simp [c3db] at hq
      rcases hq with h1 | h1 <;> rw [h1] <;> norm_num)
    (by
      simp [submit_quiz_attempt, c3db, c3rs, c3r1, c3r2, c3db', c3att, c3resp,
        gradeFold, gradeStep, responseIsCorrect, quizTotalPoints]
      norm_num)
  exact ⟨h.1, h.2.2.2⟩

/-- A submitted response whose question id (99) matches no question. -/
def c10rd : ResponseInput := { question_id := 99 }

/-- Witness for C10: inserting the unknown-question response between the two
known ones changes nothing — the attempt succeeds with the same stored rows,
and the denominator stays the quiz's full 5 points. -/
theorem C10_unknown_question_skipped_witness :
    submit_quiz_attempt c3db 2 1 ([c3r1] ++ [c3r2]) = Except.ok (c3db', c3att) ∧
    c3att.total_points = quizTotalPoints c3db 2 := by
  have h := C10_unknown_question_skipped c3db 2 1 [c3r1] [c3r2] c10rd c3db' c3att
    (by simp [c3db, c10rd])
    (by
      simp [submit_quiz_attempt, c3db, c3r1, c3r2, c10rd, c3db', c3att, c3resp,
        gradeFold, gradeStep, responseIsCorrect, quizTotalPoints]
      norm_num)
  exact ⟨h.1, h.2.2⟩

end LMS
